import Mathlib

/-!
# Verification of the Elliot-Invoices worker (src/src/index.js)

Shallow embedding of the invoicing Worker's API handlers and receipt
rendering.  The repository contains two historical variants of the worker in
`src/src/index.js`; the second (superset) variant — `handleApi`,
`sendReceiptEmail`, `renderReceiptHtml`, `renderReceiptText` and their helpers
— is the authority for the routes specified, and is what is embedded below.
The earlier variant's `POST /api/customers` route (absent from the superset
variant) is embedded separately as `customersPost`.

Modelling conventions:
* JavaScript JSON values are modelled by `JVal`; `Option ℚ` models a JS
  number where `none` is `NaN`.
* Database rows are Lean structures; the D1 store is a `Store` of lists.
  `created_at` / `issued_at` columns are filled in by the store layer
  (SQL defaults), not by the worker code, and are omitted.
* The `items_json` column stores `JSON.stringify` of the items array and is
  read back with `JSON.parse`; no claim inspects the serialized text, so the
  column is modelled by the structured list itself (the round-trip).
* External effects are explicit parameters/results: the outbound provider
  call of `sendReceiptEmail` is surfaced as a `SentEmail` value plus a
  `FetchResult` input giving the provider's response.
-/

namespace Emm

/-- A JavaScript value as it can appear in a parsed JSON request body
(`absent` is a missing property, i.e. `undefined`; `jnan` is `NaN`). -/
inductive JVal where
  | absent
  | jnull
  | jbool (b : Bool)
  | jnum (q : ℚ)
  | jnan
  | jstr (s : String)
deriving Repr, DecidableEq

/-- JavaScript truthiness of a `JVal`. -/
def JVal.truthy : JVal → Bool
  | .absent => false
  | .jnull => false
  | .jbool b => b
  | .jnum q => q != 0
  | .jnan => false
  | .jstr s => s != ""

/-- ASCII whitespace (the whitespace actually occurring in this system's
inputs; JS trims a larger Unicode class). -/
def isWs (c : Char) : Bool := c = ' ' || c = '\t' || c = '\n' || c = '\r'

/-- JavaScript `String.prototype.trim()` at the character-list level. -/
def jsTrim (s : String) : String :=
  String.mk (((s.data.dropWhile isWs).reverse.dropWhile isWs).reverse)

/-- Split a character list on a separator character (`String.prototype.split`
with a single-character separator). -/
def splitChar (l : List Char) (c : Char) : List (List Char) :=
  match l with
  | [] => [[]]
  | x :: xs =>
    let r := splitChar xs c
    if x = c then [] :: r
    else
      match r with
      | [] => [[x]]
      | h :: t => (x :: h) :: t

/-- Parse a non-empty all-digit character list as a natural number. -/
def digitsToNat (l : List Char) : Option ℕ :=
  if l ≠ [] ∧ l.all (fun c => c.isDigit) then
    some (l.foldl (fun acc c => acc * 10 + (c.toNat - 48)) 0)
  else none

/-- Model of JavaScript `Number(string)` restricted to plain decimal literals:
the trimmed empty string is 0; an optional sign followed by digits with an
optional fractional part parses as a rational; anything else is `NaN`
(`none`).  (Exponent/hex/`Infinity` forms do not occur in this system's
inputs.) -/
def strToNumber (s : String) : Option ℚ :=
  let t := (jsTrim s).data
  if t = [] then some 0
  else
    let sign : ℚ := if t.head? = some '-' then -1 else 1
    let rest := if t.head? = some '-' ∨ t.head? = some '+' then t.drop 1 else t
    match splitChar rest '.' with
    | [ip] => (digitsToNat ip).map (fun n => sign * (n : ℚ))
    | [ip, fp] =>
        if ip = [] ∧ fp = [] then none
        else
          match (if ip = [] then some 0 else digitsToNat ip),
                (if fp = [] then some 0 else digitsToNat fp) with
          | some i, some f => some (sign * ((i : ℚ) + (f : ℚ) / ((10 : ℚ) ^ fp.length)))
          | _, _ => none
    | _ => none

/-- JavaScript `Number(v)` coercion; `none` is `NaN`. -/
def JVal.toNumber : JVal → Option ℚ
  | .absent => none
  | .jnull => some 0
  | .jbool b => some (if b then 1 else 0)
  | .jnum q => some q
  | .jnan => none
  | .jstr s => strToNumber s

/-- `Number(v || 0)` — the numeric-input coercion used by the invoice upsert
route and by `gbp`. -/
def numOr0 (v : JVal) : Option ℚ :=
  (if v.truthy then v else JVal.jnum 0).toNumber

/-- `Number(x || 0)` for a stored number-or-NaN value (NaN is falsy). -/
def qOr0 (v : Option ℚ) : ℚ := v.getD 0

/-- `safeStr(v) = String(v ?? "").trim()` for a string-or-null-or-absent
body value. -/
def safeStr (v : Option String) : String := jsTrim (v.getD "")

/-- JS `a || b` on strings. -/
def jsOrStr (a b : String) : String := if a = "" then b else a

/-- JS `a || null` on a string. -/
def strOrNull (a : String) : Option String := if a = "" then none else some a

/-- JS truthiness of a nullable string (a SQL NULL or a string value). -/
def truthyOptStr (o : Option String) : Bool := o.getD "" != ""

/-- JS `o || b` for a nullable string with a string fallback. -/
def jsOrOptStr (o : Option String) (b : String) : String :=
  if truthyOptStr o then o.getD "" else b

/-- `l.replaceAll(c, rep)` for a single-character search string, at the
character-list level. -/
def replaceAllChar (l : List Char) (c : Char) (rep : List Char) : List Char :=
  l.foldr (fun x acc => (if x = c then rep else [x]) ++ acc) []

/-- `s.slice(0, 10).replaceAll("-", "")` — the compact date used in derived
receipt numbers. -/
def compactDate (s : String) : String :=
  String.mk (replaceAllChar (s.data.take 10) '-' [])

/-- `escapeHtml` from the source: the sequential `replaceAll` chain over
`&`, `<`, `>`, `"`, `'` (the source first applies `String(s ?? "")`, which is
the identity on the strings this system feeds it). -/
def escapeHtml (s : String) : String :=
  String.mk
    (replaceAllChar
      (replaceAllChar
        (replaceAllChar
          (replaceAllChar
            (replaceAllChar s.toList '&' "&amp;".toList)
            '<' "&lt;".toList)
          '>' "&gt;".toList)
        (Char.ofNat 34) "&quot;".toList)
      (Char.ofNat 39) "&#39;".toList)

/-- The ten decimal digit characters. -/
def digitChars : List Char := ['0', '1', '2', '3', '4', '5', '6', '7', '8', '9']

/-- The digit character of `n % 10`. -/
def digitCharOf (n : ℕ) : Char :=
  match n % 10 with
  | 0 => '0' | 1 => '1' | 2 => '2' | 3 => '3' | 4 => '4'
  | 5 => '5' | 6 => '6' | 7 => '7' | 8 => '8' | _ => '9'

/-- Digit accumulator for `natRepr` (`fuel` bounds the recursion). -/
def natReprGo : ℕ → ℕ → List Char → List Char
  | 0, _, acc => acc
  | fuel + 1, n, acc =>
    if n < 10 then digitCharOf n :: acc
    else natReprGo fuel (n / 10) (digitCharOf n :: acc)

/-- Decimal display of a natural number (the JS number-to-string display of
the nonnegative integers this system shows). -/
def natRepr (n : ℕ) : String := String.mk (natReprGo (n + 1) n [])

/-- Decimal display of an integer. -/
def intRepr (i : ℤ) : String :=
  if i < 0 then "-" ++ natRepr (-i).toNat else natRepr i.toNat

/-- `n.toFixed(2)` for a non-negative rational: round half up to two
decimals. -/
def toFixed2Nonneg (q : ℚ) : String :=
  let n : ℕ := (⌊q * 100 + 1 / 2⌋).toNat
  natRepr (n / 100) ++ "." ++ (if n % 100 < 10 then "0" else "") ++ natRepr (n % 100)

/-- `n.toFixed(2)`: negative numbers format the magnitude behind a minus
sign; ties round away from zero. -/
def toFixed2 (q : ℚ) : String :=
  if q < 0 then "-" ++ toFixed2Nonneg (-q) else toFixed2Nonneg q

/-- `toFixed(2)` of a JS number that may be `NaN`. -/
def toFixed2JS : Option ℚ → String
  | none => "NaN"
  | some q => toFixed2 q

/-- `gbp(n)` from the source: `£` + `Number(n || 0).toFixed(2)`. -/
def gbp (v : JVal) : String := "£" ++ toFixed2JS (numOr0 v)

/-- Display of a JS number in a template interpolation.  Integers print
without a decimal point; the (claims-irrelevant) fractional display is
approximated by the two-decimal form. -/
def showNum : Option ℚ → String
  | none => "NaN"
  | some q => if q.den = 1 then intRepr q.num else toFixed2 q

/-- Template interpolation `${v}` of a `JVal`. -/
def JVal.display : JVal → String
  | .absent => "undefined"
  | .jnull => "null"
  | .jnan => "NaN"
  | .jbool b => if b then "true" else "false"
  | .jnum q => showNum (some q)
  | .jstr s => s

/-- Template interpolation of a possibly-missing string property. -/
def showOptStr : Option String → String
  | none => "undefined"
  | some s => s

/-- `new Date(x).toLocaleString("en-GB")` is a host-environment date
formatter external to this codebase; no claim depends on its output, so it
is modelled as the identity on the stored timestamp string. -/
def toLocaleStringGB (s : String) : String := s

/-- `s` contains `pat` as a substring. -/
def containsStr (s pat : String) : Prop := ∃ p q, s = p ++ pat ++ q

/-! ## Data model (D1 rows and the store) -/

/-- A `customers` row (the `created_at` column is a store-layer default and
is omitted). -/
structure Customer where
  id : ℕ
  name : String
  email : Option String
  address : Option String
  phone : Option String
deriving Repr, DecidableEq

/-- A line item as stored in `items_json` and consumed by the renderers. -/
structure Item where
  desc : Option String := none
  date : Option String := none
  time : Option String := none
  qty : JVal := .absent
  unit : JVal := .absent
  amount : JVal := .absent
deriving Repr, DecidableEq

/-- An `invoices` row.  Monetary columns are `Option ℚ` because the upsert
route can persist the `NaN` produced by JS numeric coercion; `issued_at` is a
store-layer default and is omitted; `items_json` is modelled by the parsed
list (see file header). -/
structure Invoice where
  id : ℕ
  invoice_no : String
  customer_id : Option ℕ
  programme : String
  subtotal : Option ℚ
  travel_fee : Option ℚ
  total : Option ℚ
  deposit_amount : Option ℚ
  items : List Item
  notes : Option String
  due_date : Option String
  paid_at : Option String
  paid_method : Option String
  paid_ref : Option String
  receipt_no : Option String
  emailed_receipt_at : Option String
deriving Repr, DecidableEq

/-- The D1 database: both tables plus the AUTOINCREMENT counters. -/
structure Store where
  customers : List Customer
  invoices : List Invoice
  nextCustomerId : ℕ
  nextInvoiceId : ℕ
deriving Repr, DecidableEq

/-- `SELECT ... FROM invoices WHERE id = ?` -/
def findInvoice (s : Store) (id : ℕ) : Option Invoice :=
  s.invoices.find? (fun i => i.id == id)

/-- The customer side of `LEFT JOIN customers c ON c.id = i.customer_id`. -/
def findCustomer (s : Store) (cid : Option ℕ) : Option Customer :=
  match cid with
  | none => none
  | some c => s.customers.find? (fun r => r.id == c)

/-- `UPDATE invoices SET ... WHERE id = ?` (applies `f` to every row whose
id matches; ids are unique in practice but the SQL semantics maps all). -/
def updateInvoices (s : Store) (id : ℕ) (f : Invoice → Invoice) : Store :=
  { s with invoices := s.invoices.map (fun i => if i.id == id then f i else i) }

/-! ## JSON response envelope -/

/-- The JSON response envelope: status code, `ok`, and the payload fields the
routes of interest emit (`none` = field absent from the response object). -/
structure ApiResp where
  status : ℕ := 200
  ok : Bool := true
  error : Option String := none
  id : Option ℕ := none
  invoice_no : Option String := none
  customer_id : Option (Option ℕ) := none
  receipt_no : Option String := none
  emailed : Option Bool := none
  emailError : Option (Option String) := none
deriving Repr, DecidableEq

/-- `bad(status, message)` from the source. -/
def bad (status : ℕ) (msg : String) : ApiResp :=
  { status := status, ok := false, error := some msg }

/-! ## Receipt rendering -/

/-- The argument object built by `sendReceiptEmail` for the two renderers
(the union of the fields of both call sites). -/
structure ReceiptData where
  receiptNo : String
  invoiceNo : String
  paidAt : Option String
  paidMethod : Option String
  paidRef : Option String
  customerName : Option String
  customerEmail : Option String
  customerAddress : Option String
  items : List Item
  travelFee : ℚ
  total : ℚ
  deposit : ℚ
  balanceDue : ℚ
  programme : String
deriving Repr, DecidableEq

/-- The optional date/time annotation span of a line-item row (`when` in the
source). -/
def itemWhenHtml (it : Item) : String :=
  if truthyOptStr it.date || truthyOptStr it.time then
    " <span style=\"color:#6b7280;font-size:12px;\">(" ++
      escapeHtml (jsOrOptStr it.date "") ++
      (if truthyOptStr it.time then " " ++ escapeHtml (it.time.getD "") else "") ++
      ")</span>"
  else ""

/-- One `<tr>` of the line-item table in `renderReceiptHtml`. -/
def itemRowHtml (it : Item) : String :=
  "\n        <tr>\n          <td style=\"padding:10px 0;border-bottom:1px solid #e5e7eb;\">" ++
    escapeHtml (jsOrOptStr it.desc "") ++ itemWhenHtml it ++
    "</td>\n          <td style=\"padding:10px 0;border-bottom:1px solid #e5e7eb;text-align:right;\">" ++
    showNum (numOr0 it.qty) ++
    "</td>\n          <td style=\"padding:10px 0;border-bottom:1px solid #e5e7eb;text-align:right;\">" ++
    gbp it.unit ++
    "</td>\n          <td style=\"padding:10px 0;border-bottom:1px solid #e5e7eb;text-align:right;\">" ++
    gbp it.amount ++
    "</td>\n        </tr>\n      "

/-- The optional travel-fee row of `renderReceiptHtml`. -/
def travelRowHtml (d : ReceiptData) : String :=
  if d.travelFee ≠ 0 then
    "\n        <tr>\n          <td style=\"padding:10px 0;border-bottom:1px solid #e5e7eb;\">Travel Fee</td>\n          <td style=\"padding:10px 0;border-bottom:1px solid #e5e7eb;text-align:right;\">1</td>\n          <td style=\"padding:10px 0;border-bottom:1px solid #e5e7eb;text-align:right;\">" ++
      gbp (.jnum d.travelFee) ++
      "</td>\n          <td style=\"padding:10px 0;border-bottom:1px solid #e5e7eb;text-align:right;\">" ++
      gbp (.jnum d.travelFee) ++
      "</td>\n        </tr>\n      "
  else ""

/-- The deposit-aware totals block of `renderReceiptHtml` (branches on
`Number(data.deposit || 0) > 0`). -/
def depositBlockHtml (d : ReceiptData) : String :=
  if 0 < d.deposit then
    "\n        <div style=\"display:flex;justify-content:space-between;margin-top:8px;\">\n          <div style=\"color:#374151;\">" ++
    "Stripe deposit already paid:" ++
    "</div>\n          <div style=\"font-weight:700;\">" ++
    gbp (.jnum d.deposit) ++
    "</div>\n        </div>\n        <div style=\"display:flex;justify-content:space-between;margin-top:8px;\">\n          <div style=\"color:#111827;font-weight:800;\">" ++
    "Payment received today:" ++
    "</div>\n          <div style=\"font-weight:900;color:#047857;\">" ++
    gbp (.jnum d.balanceDue) ++
    "</div>\n        </div>\n        <div style=\"display:flex;justify-content:space-between;margin-top:8px;padding-top:10px;border-top:3px solid #10b981;\">\n          <div style=\"color:#111827;font-weight:900;\">" ++
    "Total paid to date:" ++
    "</div>\n          <div style=\"font-weight:900;color:#047857;\">" ++
    gbp (.jnum d.total) ++
    "</div>\n        </div>\n      "
  else
    "\n        <div style=\"display:flex;justify-content:space-between;margin-top:8px;padding-top:10px;border-top:3px solid #10b981;\">\n          <div style=\"color:#111827;font-weight:900;\">" ++
    "Total paid:" ++
    "</div>\n          <div style=\"font-weight:900;color:#047857;\">" ++
    gbp (.jnum d.total) ++
    "</div>\n        </div>\n      "

/-- The optional payment-reference line of the metadata panel. -/
def refHtml (d : ReceiptData) : String :=
  if truthyOptStr d.paidRef then
    "<div style=\"color:#374151;margin-top:6px;\">Ref: <span style=\"font-weight:800;color:#111827;\">" ++
    escapeHtml (d.paidRef.getD "") ++ "</span></div>"
  else ""

/-- `renderReceiptHtml` from the source (template text reproduced; literals
are split at interpolation points; the two single-use locals `paidDate` and
`rows` are inlined). -/
def renderReceiptHtml (d : ReceiptData) : String :=
  "\n  <div style=\"font-family:Inter,system-ui,-apple-system,Segoe UI,Roboto,Arial,sans-serif;max-width:680px;margin:0 auto;padding:22px;color:#111827;\">\n    <div style=\"display:flex;justify-content:space-between;align-items:flex-start;border-bottom:1px solid #e5e7eb;padding-bottom:14px;\">\n      <div>\n        <div style=\"font-size:28px;font-weight:900;color:#047857;\">RECEIPT</div>\n        <div style=\"margin-top:6px;color:#6b7280;\">Payment confirmation for your records.</div>\n      </div>\n      <div style=\"text-align:right;color:#374151;\">\n        <div style=\"font-weight:800;\">Elliot’s Mobile Music</div>\n        <div style=\"font-size:13px;\">Pudsey, UK</div>\n      </div>\n    </div>\n\n    <div style=\"display:flex;justify-content:space-between;gap:20px;border-bottom:1px solid #f3f4f6;padding:16px 0;\">\n      <div style=\"flex:1;\">\n        <div style=\"font-size:12px;font-weight:800;color:#374151;margin-bottom:6px;\">RECEIPT TO</div>\n        <div style=\"font-weight:800;\">" ++
  escapeHtml (jsOrOptStr d.customerName "—") ++
  "</div>\n        <div style=\"color:#4b5563;font-size:13px;\">" ++
  escapeHtml (jsOrOptStr d.customerAddress "") ++
  "</div>\n        <div style=\"color:#4b5563;font-size:13px;\">" ++
  escapeHtml (jsOrOptStr d.customerEmail "") ++
  "</div>\n      </div>\n      <div style=\"text-align:right;min-width:240px;\">\n        <div style=\"color:#374151;\">Receipt No: <span style=\"font-weight:800;color:#111827;\">" ++
  escapeHtml (jsOrStr d.receiptNo "—") ++
  "</span></div>\n        <div style=\"color:#374151;margin-top:6px;\">Invoice No: <span style=\"font-weight:800;color:#111827;\">" ++
  escapeHtml (jsOrStr d.invoiceNo "—") ++
  "</span></div>\n        <div style=\"color:#374151;margin-top:6px;\">Paid Date: <span style=\"font-weight:800;color:#111827;\">" ++
  escapeHtml (if truthyOptStr d.paidAt then toLocaleStringGB (d.paidAt.getD "") else "—") ++
  "</span></div>\n        <div style=\"color:#374151;margin-top:6px;\">Method: <span style=\"font-weight:800;color:#111827;\">" ++
  escapeHtml (jsOrOptStr d.paidMethod "—") ++
  "</span></div>\n        " ++
  refHtml d ++
  "\n      </div>\n    </div>\n\n    <div style=\"padding-top:16px;\">\n      <div style=\"font-weight:800;color:#374151;margin-bottom:10px;\">Items Paid</div>\n\n      <table style=\"width:100%;border-collapse:collapse;\">\n        <thead>\n          <tr style=\"background:#ecfdf5;color:#6b7280;text-transform:uppercase;font-size:12px;\">\n            <th style=\"text-align:left;padding:10px 0;border-bottom:1px solid #e5e7eb;\">Description</th>\n            <th style=\"text-align:right;padding:10px 0;border-bottom:1px solid #e5e7eb;\">Qty</th>\n            <th style=\"text-align:right;padding:10px 0;border-bottom:1px solid #e5e7eb;\">Unit</th>\n            <th style=\"text-align:right;padding:10px 0;border-bottom:1px solid #e5e7eb;\">Amount</th>\n          </tr>\n        </thead>\n        <tbody>\n          " ++
  String.join (d.items.map itemRowHtml) ++
  "\n          " ++
  travelRowHtml d ++
  "\n        </tbody>\n      </table>\n\n      <div style=\"margin-top:14px;\">\n        <div style=\"display:flex;justify-content:space-between;margin-top:8px;\">\n          <div style=\"color:#374151;\">Total (package):</div>\n          <div style=\"font-weight:700;\">" ++
  gbp (.jnum d.total) ++
  "</div>\n        </div>\n\n        " ++
  depositBlockHtml d ++
  "\n      </div>\n\n      <div style=\"margin-top:16px;color:#374151;font-size:13px;\">\n        Thank you — your payment has been received.\n      </div>\n    </div>\n  </div>"

/-- The pushed line list of `renderReceiptText` (the single-use local
`paidDate` is inlined). -/
def receiptTextLines (d : ReceiptData) : List String :=
  ["RECEIPT / PAYMENT CONFIRMATION", "",
   "Receipt No: " ++ jsOrStr d.receiptNo "—",
   "Invoice No: " ++ jsOrStr d.invoiceNo "—",
   "Paid Date: " ++
     (if truthyOptStr d.paidAt then toLocaleStringGB (d.paidAt.getD "") else "—"),
   "Method: " ++ jsOrOptStr d.paidMethod "—"] ++
  (if truthyOptStr d.paidRef then ["Ref: " ++ d.paidRef.getD ""] else []) ++
  ["", "Receipt To: " ++ jsOrOptStr d.customerName "—", "", "Items:"] ++
  d.items.map (fun it =>
    "- " ++ showOptStr it.desc ++ " — " ++ it.qty.display ++ " × £" ++
    toFixed2JS it.unit.toNumber ++ " = £" ++ toFixed2JS it.amount.toNumber) ++
  (if d.travelFee ≠ 0 then ["- Travel Fee — £" ++ toFixed2 d.travelFee] else []) ++
  ["", "Total (package): £" ++ toFixed2 d.total] ++
  (if 0 < d.deposit then
    ["Stripe deposit already paid: £" ++ toFixed2 d.deposit,
     "Payment received today: £" ++ toFixed2 d.balanceDue,
     "Total paid to date: £" ++ toFixed2 d.total]
   else
    ["Total paid: £" ++ toFixed2 d.total]) ++
  ["", "Thank you,", "Elliot’s Mobile Music"]

/-- `renderReceiptText` from the source: the pushed lines joined with
newlines. -/
def renderReceiptText (d : ReceiptData) : String :=
  String.intercalate "\n" (receiptTextLines d)

/-! ## Email flow -/

/-- The Worker environment bindings the handlers read. -/
structure Env where
  RESEND_API_KEY : Option String := none
  RESEND_FROM : Option String := none
  dbConfigured : Bool := true
deriving Repr, DecidableEq

/-- The JSON body of the outbound provider call (`from/to/subject/html/text`;
`from`/`to` are spelled `fromAddr`/`toAddr` because they are Lean
keywords). -/
structure SentEmail where
  fromAddr : String
  toAddr : String
  subject : String
  html : String
  text : String
deriving Repr, DecidableEq

/-- The provider's response to the outbound call, an input of the model
(`ok` = 2xx). -/
structure FetchResult where
  ok : Bool
  status : ℕ
  errText : String
deriving Repr, DecidableEq

/-- Result of `sendReceiptEmail`: the outbound request if one was made, plus
the `{emailed, error}` object the source returns. -/
structure EmailResult where
  request : Option SentEmail
  emailed : Bool
  error : Option String
deriving Repr, DecidableEq

/-- `receiptNo || row.receipt_no || derived` — the effective receipt number
used for rendering (never persisted by this computation). -/
def effReceiptNo (receiptNo rowReceiptNo : Option String) (invoiceNo now : String) : String :=
  if truthyOptStr receiptNo then receiptNo.getD ""
  else if truthyOptStr rowReceiptNo then rowReceiptNo.getD ""
  else "RCPT-" ++ invoiceNo ++ "-" ++ compactDate now

/-- The `ReceiptData` object `sendReceiptEmail` builds from the joined row. -/
def receiptDataFor (row : Invoice) (cust : Option Customer) (effectiveReceiptNo : String) :
    ReceiptData :=
  let total := qOr0 row.total
  let deposit := qOr0 row.deposit_amount
  { receiptNo := effectiveReceiptNo
    invoiceNo := row.invoice_no
    paidAt := row.paid_at
    paidMethod := row.paid_method
    paidRef := row.paid_ref
    customerName := cust.map (fun c => c.name)
    customerEmail := cust.bind (fun c => c.email)
    customerAddress := cust.bind (fun c => c.address)
    items := row.items
    travelFee := qOr0 row.travel_fee
    total := total
    deposit := deposit
    balanceDue := max 0 (total - deposit)
    programme := row.programme }

/-- `sendReceiptEmail` from the source.  `now` is the `nowIso()` instant used
for a freshly derived receipt number; `fetch` is the provider's response to
the outbound call (consulted only if the call is made). -/
def sendReceiptEmail (env : Env) (s : Store) (invoiceId : ℕ)
    (receiptNo : Option String) (now : String) (fetch : FetchResult) : EmailResult :=
  if ¬ (truthyOptStr env.RESEND_API_KEY ∧ truthyOptStr env.RESEND_FROM) then
    { request := none, emailed := false,
      error := some "Email not configured (missing RESEND_API_KEY or RESEND_FROM)" }
  else
    match findInvoice s invoiceId with
    | none => { request := none, emailed := false, error := some "Invoice not found" }
    | some row =>
      let cust := findCustomer s row.customer_id
      let customerEmail := cust.bind (fun c => c.email)
      if ¬ truthyOptStr customerEmail then
        { request := none, emailed := false, error := some "Customer email missing" }
      else
        let effectiveReceiptNo := effReceiptNo receiptNo row.receipt_no row.invoice_no now
        let data := receiptDataFor row cust effectiveReceiptNo
        let req : SentEmail :=
          { fromAddr := env.RESEND_FROM.getD ""
            toAddr := customerEmail.getD ""
            subject := "Receipt — " ++ row.invoice_no ++ " — Paid"
            html := renderReceiptHtml data
            text := renderReceiptText data }
        if fetch.ok then { request := some req, emailed := true, error := none }
        else
          { request := some req, emailed := false,
            error := some ("Resend error " ++ toString fetch.status ++ ": " ++
                           String.mk (fetch.errText.data.take 300)) }

/-! ## API routes -/

/-- Body of `POST /api/invoices/{id}/mark-paid`. -/
structure MarkPaidBody where
  paid_at : Option String := none
  paid_method : Option String := none
  paid_ref : Option String := none
deriving Repr, DecidableEq

/-- The receipt number mark-paid persists: reuse a truthy existing one,
otherwise derive `RCPT-<invoice_no>-<compact date>` from the payment date. -/
def markPaidReceiptNo (existing : Invoice) (paidAt : String) : String :=
  if truthyOptStr existing.receipt_no then existing.receipt_no.getD ""
  else "RCPT-" ++ existing.invoice_no ++ "-" ++ compactDate paidAt

/-- `paid_at = safeStr(body.paid_at) || nowIso()` of mark-paid. -/
def mpPaidAt (body : Option MarkPaidBody) (now : String) : String :=
  jsOrStr (safeStr (body.getD {}).paid_at) now

/-- `paid_method = safeStr(body.paid_method) || "Bank Transfer"` of mark-paid. -/
def mpPaidMethod (body : Option MarkPaidBody) : String :=
  jsOrStr (safeStr (body.getD {}).paid_method) "Bank Transfer"

/-- `paid_ref = safeStr(body.paid_ref) || null` of mark-paid. -/
def mpPaidRef (body : Option MarkPaidBody) : Option String :=
  strOrNull (safeStr (body.getD {}).paid_ref)

/-- The row change of mark-paid's single `UPDATE invoices SET paid_at,
paid_method, paid_ref, receipt_no`. -/
def mpUpdate (body : Option MarkPaidBody) (now : String) (receiptNo : String)
    (i : Invoice) : Invoice :=
  { i with paid_at := some (mpPaidAt body now), paid_method := some (mpPaidMethod body),
           paid_ref := mpPaidRef body, receipt_no := some receiptNo }

/-- The row change of `UPDATE invoices SET emailed_receipt_at = ?`. -/
def stampEmailed (stampNow : String) (i : Invoice) : Invoice :=
  { i with emailed_receipt_at := some stampNow }

/-- `POST /api/invoices/{id}/mark-paid`.  `body = none` models an unparseable
JSON body (`readJson` returned null, defaulted to `{}` by the route); `now`
is the `nowIso()` default for `paid_at`; `stampNow` is the `nowIso()` used to
stamp `emailed_receipt_at`; `fetch` is the email provider's response. -/
def markPaid (env : Env) (s : Store) (id : ℕ) (body : Option MarkPaidBody)
    (now stampNow : String) (fetch : FetchResult) : ApiResp × Store :=
  if ¬ env.dbConfigured then (bad 500 "DB not configured", s)
  else
    match findInvoice s id with
    | none => (bad 404 "Invoice not found", s)
    | some existing =>
      let receiptNo := markPaidReceiptNo existing (mpPaidAt body now)
      let s1 := updateInvoices s id (mpUpdate body now receiptNo)
      let result := sendReceiptEmail env s1 id (some receiptNo) now fetch
      let s2 :=
        if result.emailed then updateInvoices s1 id (stampEmailed stampNow)
        else s1
      ({ status := 200, ok := true, id := some id, receipt_no := some receiptNo,
         emailed := some result.emailed, emailError := some result.error }, s2)

/-- `POST /api/invoices/{id}/mark-unpaid`. -/
def markUnpaid (env : Env) (s : Store) (id : ℕ) : ApiResp × Store :=
  if ¬ env.dbConfigured then (bad 500 "DB not configured", s)
  else
    ({ status := 200, ok := true, id := some id },
     updateInvoices s id (fun i =>
       { i with paid_at := none, paid_method := none, paid_ref := none }))

/-- `POST /api/invoices/{id}/email-receipt` (manual resend). -/
def emailReceipt (env : Env) (s : Store) (id : ℕ) (now stampNow : String)
    (fetch : FetchResult) : ApiResp × Store :=
  if ¬ env.dbConfigured then (bad 500 "DB not configured", s)
  else
    let row := findInvoice s id
    let receiptNo :=
      if truthyOptStr (row.bind (fun r => r.receipt_no)) then
        row.bind (fun r => r.receipt_no)
      else none
    let result := sendReceiptEmail env s id receiptNo now fetch
    let s' :=
      if result.emailed then updateInvoices s id (stampEmailed stampNow)
      else s
    ({ status := 200, ok := true, id := some id, emailed := some result.emailed,
       error := if truthyOptStr result.error then result.error else none }, s')

/-- Customer sub-object of the invoice-upsert body. -/
structure CustBody where
  name : Option String := none
  email : Option String := none
  address : Option String := none
  phone : Option String := none
deriving Repr, DecidableEq

/-- Body of `POST /api/invoices` (upsert). -/
structure UpsertBody where
  invoice_no : Option String := none
  programme : Option String := none
  subtotal : JVal := .absent
  travel_fee : JVal := .absent
  total : JVal := .absent
  deposit_amount : JVal := .absent
  due_date : Option String := none
  notes : Option String := none
  items : List Item := []
  customer : Option CustBody := none
deriving Repr, DecidableEq

/-- The customer-upsert step of the invoice upsert: look up by email and
update when an email is given, otherwise insert a brand-new row (the
source's comment: "No email: insert a new customer record (can duplicate,
but fine)").  Returns the customer id used and the updated store. -/
def upsertCustomer (s : Store) (custName custEmail custAddress custPhone : String) :
    Option ℕ × Store :=
  if custEmail ≠ "" then
    match s.customers.find? (fun c => c.email == some custEmail) with
    | some existing =>
      (some existing.id,
       { s with customers := s.customers.map (fun c =>
           if c.id == existing.id then
             { c with name := custName, address := strOrNull custAddress,
                      phone := strOrNull custPhone }
           else c) })
    | none =>
      (some s.nextCustomerId,
       { s with
         customers := s.customers ++
           [{ id := s.nextCustomerId, name := custName, email := some custEmail,
              address := strOrNull custAddress, phone := strOrNull custPhone }]
         nextCustomerId := s.nextCustomerId + 1 })
  else
    (some s.nextCustomerId,
     { s with
       customers := s.customers ++
         [{ id := s.nextCustomerId, name := custName, email := none,
            address := strOrNull custAddress, phone := strOrNull custPhone }]
       nextCustomerId := s.nextCustomerId + 1 })

/-- The field changes of the `ON CONFLICT(invoice_no) DO UPDATE SET` branch
of the invoice upsert. -/
def conflictUpdate (customerId : Option ℕ) (programme : String)
    (subtotal travelFee total depositAmount : Option ℚ) (items : List Item)
    (notes dueDate : Option String) (i : Invoice) : Invoice :=
  { i with customer_id := customerId, programme := programme,
           subtotal := subtotal, travel_fee := travelFee, total := total,
           deposit_amount := depositAmount, items := items,
           notes := notes, due_date := dueDate }

/-- The `INSERT ... ON CONFLICT(invoice_no) DO UPDATE` of the invoice
upsert. -/
def upsertInvoiceRow (s1 : Store) (invoiceNo : String) (customerId : Option ℕ)
    (programme : String) (subtotal travelFee total depositAmount : Option ℚ)
    (items : List Item) (notes dueDate : Option String) : Store :=
  match s1.invoices.find? (fun i => i.invoice_no == invoiceNo) with
  | some _ =>
    { s1 with invoices := s1.invoices.map (fun i =>
        if i.invoice_no == invoiceNo then
          conflictUpdate customerId programme subtotal travelFee total depositAmount
            items notes dueDate i
        else i) }
  | none =>
    { s1 with
      invoices := s1.invoices ++
        [{ id := s1.nextInvoiceId, invoice_no := invoiceNo,
           customer_id := customerId, programme := programme,
           subtotal := subtotal, travel_fee := travelFee, total := total,
           deposit_amount := depositAmount, items := items, notes := notes,
           due_date := dueDate, paid_at := none, paid_method := none,
           paid_ref := none, receipt_no := none, emailed_receipt_at := none }]
      nextInvoiceId := s1.nextInvoiceId + 1 }

/-- `POST /api/invoices` (upsert invoice, also upserts customer by email).
`body = none` models an unparseable JSON body. -/
def invoiceUpsert (env : Env) (s : Store) (body : Option UpsertBody) : ApiResp × Store :=
  if ¬ env.dbConfigured then (bad 500 "DB not configured", s)
  else
    match body with
    | none => (bad 400 "Invalid JSON", s)
    | some b =>
      let invoiceNo := safeStr b.invoice_no
      if invoiceNo = "" then (bad 400 "invoice_no is required", s)
      else
        let cust := b.customer.getD {}
        if safeStr cust.name = "" then (bad 400 "Customer name is required", s)
        else
          let upd := upsertCustomer s (safeStr cust.name) (safeStr cust.email)
            (safeStr cust.address) (safeStr cust.phone)
          let s2 := upsertInvoiceRow upd.2 invoiceNo upd.1
            (jsOrStr (safeStr b.programme) "lessons")
            (numOr0 b.subtotal) (numOr0 b.travel_fee) (numOr0 b.total)
            (numOr0 b.deposit_amount) b.items
            (strOrNull (safeStr b.notes)) (strOrNull (safeStr b.due_date))
          let saved := s2.invoices.find? (fun i => i.invoice_no == invoiceNo)
          ({ status := 200, ok := true, id := saved.map (fun i => i.id),
             invoice_no := some invoiceNo, customer_id := some upd.1 }, s2)

/-- `POST /api/customers` from the earlier route variant in
`src/src/index.js` (the superset variant has no customer-create route; the
spec's route table keeps this one). -/
def customersPost (s : Store) (body : Option CustBody) : ApiResp × Store :=
  match body with
  | none => (bad 400 "Invalid JSON body", s)
  | some b =>
    let name := safeStr b.name
    let email := safeStr b.email
    let address := safeStr b.address
    if name = "" then (bad 400 "Name is required", s)
    else if email = "" then (bad 400 "Email is required", s)
    else
      ({ status := 200, ok := true, id := some s.nextCustomerId },
       { s with
         customers := s.customers ++
           [{ id := s.nextCustomerId, name := name, email := some email,
              address := some address, phone := none }]
         nextCustomerId := s.nextCustomerId + 1 })

/-! ## General lemmas about the store operations -/

theorem find_map_comm {α : Type} (l : List α) (u : α → α) (p : α → Bool)
    (h : ∀ x, p (u x) = p x) : (l.map u).find? p = (l.find? p).map u := by
  induction l with
  | nil => rfl
  | cons a t ih =>
    by_cases hp : p a = true
    · rw [List.map_cons, List.find?_cons_of_pos _ (by rw [h a]; exact hp),
          List.find?_cons_of_pos _ hp, Option.map_some']
    · rw [List.map_cons, List.find?_cons_of_neg _ (by rw [h a]; exact hp),
          List.find?_cons_of_neg _ hp, ih]

theorem findInvoice_update (s : Store) (id j : ℕ) (f : Invoice → Invoice)
    (hf : ∀ i, (f i).id = i.id) :
    findInvoice (updateInvoices s id f) j =
      (findInvoice s j).map (fun i => if i.id == id then f i else i) := by
  unfold findInvoice updateInvoices
  exact find_map_comm _ _ _ (fun x => by
    by_cases hx : (x.id == id) = true
    · simp [hx, hf]
    · simp [hx])

theorem findInvoice_update_self (s : Store) (id : ℕ) (f : Invoice → Invoice)
    (hf : ∀ i, (f i).id = i.id) (inv : Invoice) (h : findInvoice s id = some inv) :
    findInvoice (updateInvoices s id f) id = some (f inv) := by
  have h' : s.invoices.find? (fun i => i.id == id) = some inv := h
  have hid : (inv.id == id) = true := by
    have hp := List.find?_some h'
    simpa using hp
  rw [findInvoice_update s id id f hf, h, Option.map_some']
  simp [hid]

theorem findInvoice_update_other (s : Store) (id j : ℕ) (f : Invoice → Invoice)
    (hf : ∀ i, (f i).id = i.id) (hne : j ≠ id) :
    findInvoice (updateInvoices s id f) j = findInvoice s j := by
  rw [findInvoice_update s id j f hf]
  cases h : findInvoice s j with
  | none => rfl
  | some inv =>
    have h' : s.invoices.find? (fun i => i.id == j) = some inv := h
    have hid : inv.id = j := by
      have hp := List.find?_some h'
      simpa using hp
    have hfalse : (inv.id == id) = false := by
      rw [hid]
      exact beq_eq_false_iff_ne.mpr hne
    simp only [Option.map_some']
    rw [if_neg (by simp [hfalse])]

theorem map_update_id_of_none (n : ℕ) (f : Invoice → Invoice) :
    ∀ l : List Invoice, (∀ x ∈ l, (x.id == n) = false) →
      l.map (fun i => if i.id == n then f i else i) = l := by
  intro l hl
  induction l with
  | nil => rfl
  | cons a t ih =>
    rw [List.map_cons, if_neg (by simp [hl a (List.mem_cons_self a t)]),
        ih (fun x hx => hl x (List.mem_cons_of_mem a hx))]

theorem updateInvoices_not_found (s : Store) (n : ℕ) (f : Invoice → Invoice)
    (h : findInvoice s n = none) : updateInvoices s n f = s := by
  have hall := List.find?_eq_none.mp (show s.invoices.find? (fun i => i.id == n) = none from h)
  have hmap : s.invoices.map (fun i => if i.id == n then f i else i) = s.invoices :=
    map_update_id_of_none n f s.invoices (fun x hx => by simpa using hall x hx)
  show { s with invoices := s.invoices.map _ } = s
  rw [hmap]

theorem updateInvoices_customers (s : Store) (id : ℕ) (f : Invoice → Invoice) :
    (updateInvoices s id f).customers = s.customers := rfl

theorem find?_append_none {α : Type} (l₁ l₂ : List α) (p : α → Bool)
    (h : l₁.find? p = none) : (l₁ ++ l₂).find? p = l₂.find? p := by
  rw [List.find?_append, h, Option.none_or]

/-! ## General lemmas about strings and escaping -/

theorem containsStr_append_left (s t pat : String) (h : containsStr s pat) :
    containsStr (s ++ t) pat := by
  obtain ⟨p, q, rfl⟩ := h
  exact ⟨p, q ++ t, by simp [String.append_assoc]⟩

theorem containsStr_append_right (s t pat : String) (h : containsStr t pat) :
    containsStr (s ++ t) pat := by
  obtain ⟨p, q, rfl⟩ := h
  exact ⟨s ++ p, q, by simp [String.append_assoc]⟩

theorem append_ne_empty_left (a b : String) (h : a ≠ "") : a ++ b ≠ "" := by
  intro hc
  apply h
  apply String.ext
  have hd := congrArg String.data hc
  rw [String.data_append] at hd
  have ha : a.data = [] := (List.append_eq_nil.mp hd).1
  simpa using ha

theorem mem_replaceAllChar (l : List Char) (c : Char) (rep : List Char) (a : Char)
    (h : a ∈ replaceAllChar l c rep) : (a ∈ l ∧ a ≠ c) ∨ a ∈ rep := by
  induction l with
  | nil => simp [replaceAllChar] at h
  | cons x t ih =>
    have h' : a ∈ (if x = c then rep else [x]) ++ replaceAllChar t c rep := h
    rcases List.mem_append.mp h' with h1 | h2
    · by_cases hx : x = c
      · right
        simpa [hx] using h1
      · left
        have ha : a = x := by simpa [hx] using h1
        exact ⟨ha ▸ List.mem_cons_self x t, ha ▸ hx⟩
    · rcases ih h2 with ⟨ha, hne⟩ | hr
      · exact Or.inl ⟨List.mem_cons_of_mem x ha, hne⟩
      · exact Or.inr hr

theorem escapeHtml_no_lt (s : String) : '<' ∉ (escapeHtml s).data := by
  intro h
  have h1 : '<' ∈ replaceAllChar
      (replaceAllChar
        (replaceAllChar
          (replaceAllChar
            (replaceAllChar s.toList '&' "&amp;".toList)
            '<' "&lt;".toList)
          '>' "&gt;".toList)
        (Char.ofNat 34) "&quot;".toList)
      (Char.ofNat 39) "&#39;".toList := h
  rcases mem_replaceAllChar _ _ _ _ h1 with ⟨h2, _⟩ | hr
  · rcases mem_replaceAllChar _ _ _ _ h2 with ⟨h3, _⟩ | hr
    · rcases mem_replaceAllChar _ _ _ _ h3 with ⟨h4, _⟩ | hr
      · rcases mem_replaceAllChar _ _ _ _ h4 with ⟨_, hne⟩ | hr
        · exact hne rfl
        · revert hr; decide
      · revert hr; decide
    · revert hr; decide
  · revert hr; decide

theorem escapeHtml_no_script (s : String) (p q : String) :
    escapeHtml s ≠ p ++ "<script>" ++ q := by
  intro hc
  apply escapeHtml_no_lt s
  rw [hc, String.data_append, String.data_append]
  exact List.mem_append.mpr (Or.inl (List.mem_append.mpr (Or.inr (by decide))))

/-! ## Lemmas about the numeric-input coercion -/

theorem numOr0_falsy (v : JVal) (h : v.truthy = false) : numOr0 v = some 0 := by
  simp [numOr0, h, JVal.toNumber]

/-! ## Unfolding lemmas for the routes -/

theorem markPaid_db_found (env : Env) (s : Store) (id : ℕ) (b : Option MarkPaidBody)
    (now stampNow : String) (fetch : FetchResult)
    (henv : env.dbConfigured = true) (inv : Invoice)
    (hfind : findInvoice s id = some inv) :
    markPaid env s id b now stampNow fetch =
      ({ status := 200, ok := true, id := some id,
         receipt_no := some (markPaidReceiptNo inv (mpPaidAt b now)),
         emailed := some (sendReceiptEmail env
           (updateInvoices s id (mpUpdate b now (markPaidReceiptNo inv (mpPaidAt b now))))
           id (some (markPaidReceiptNo inv (mpPaidAt b now))) now fetch).emailed,
         emailError := some (sendReceiptEmail env
           (updateInvoices s id (mpUpdate b now (markPaidReceiptNo inv (mpPaidAt b now))))
           id (some (markPaidReceiptNo inv (mpPaidAt b now))) now fetch).error },
       if (sendReceiptEmail env
           (updateInvoices s id (mpUpdate b now (markPaidReceiptNo inv (mpPaidAt b now))))
           id (some (markPaidReceiptNo inv (mpPaidAt b now))) now fetch).emailed then
         updateInvoices
           (updateInvoices s id (mpUpdate b now (markPaidReceiptNo inv (mpPaidAt b now))))
           id (stampEmailed stampNow)
       else
         updateInvoices s id (mpUpdate b now (markPaidReceiptNo inv (mpPaidAt b now)))) := by
  simp [markPaid, henv, hfind]

theorem sendReceiptEmail_error_descriptive (env : Env) (s : Store) (id : ℕ)
    (rno : Option String) (now : String) (fetch : FetchResult)
    (h : (sendReceiptEmail env s id rno now fetch).emailed = false) :
    ∃ e, (sendReceiptEmail env s id rno now fetch).error = some e ∧ e ≠ "" := by
  by_cases hcfg : truthyOptStr env.RESEND_API_KEY = true ∧ truthyOptStr env.RESEND_FROM = true
  · cases hrow : findInvoice s id with
    | none =>
      exact ⟨"Invoice not found", by simp [sendReceiptEmail, hcfg, hrow], by decide⟩
    | some row =>
      by_cases hmail :
          truthyOptStr ((findCustomer s row.customer_id).bind (fun c => c.email)) = true
      · by_cases hok : fetch.ok = true
        · simp [sendReceiptEmail, hcfg, hrow, hmail, hok] at h
        · exact ⟨"Resend error " ++ toString fetch.status ++ ": " ++
              String.mk (fetch.errText.data.take 300),
            by simp [sendReceiptEmail, hcfg, hrow, hmail, hok],
            append_ne_empty_left _ _ (append_ne_empty_left _ _
              (append_ne_empty_left _ _ (by decide)))⟩
      · exact ⟨"Customer email missing",
          by simp [sendReceiptEmail, hcfg, hrow, hmail], by decide⟩
  · exact ⟨"Email not configured (missing RESEND_API_KEY or RESEND_FROM)",
      by simp [sendReceiptEmail, hcfg], by decide⟩

/-- The invoice row mark-paid leaves behind for the targeted id: the paid
fields and receipt number of the single UPDATE, with `emailed_receipt_at`
stamped exactly when the response reports a successful send. -/
theorem markPaid_persisted (env : Env) (s : Store) (id : ℕ) (b : Option MarkPaidBody)
    (now stampNow : String) (fetch : FetchResult)
    (henv : env.dbConfigured = true) (inv : Invoice)
    (hfind : findInvoice s id = some inv) :
    ∃ inv2, findInvoice (markPaid env s id b now stampNow fetch).2 id = some inv2 ∧
      inv2.receipt_no = some (markPaidReceiptNo inv (mpPaidAt b now)) ∧
      inv2.paid_at = some (mpPaidAt b now) ∧
      inv2.paid_method = some (mpPaidMethod b) ∧
      inv2.paid_ref = mpPaidRef b ∧
      inv2.emailed_receipt_at =
        (if (markPaid env s id b now stampNow fetch).1.emailed = some true then some stampNow
         else inv.emailed_receipt_at) := by
  rw [markPaid_db_found env s id b now stampNow fetch henv inv hfind]
  have hs1 : findInvoice
      (updateInvoices s id (mpUpdate b now (markPaidReceiptNo inv (mpPaidAt b now)))) id =
      some (mpUpdate b now (markPaidReceiptNo inv (mpPaidAt b now)) inv) :=
    findInvoice_update_self s id (mpUpdate b now (markPaidReceiptNo inv (mpPaidAt b now)))
      (fun i => rfl) inv hfind
  cases hres : (sendReceiptEmail env
      (updateInvoices s id (mpUpdate b now (markPaidReceiptNo inv (mpPaidAt b now))))
      id (some (markPaidReceiptNo inv (mpPaidAt b now))) now fetch).emailed with
  | true =>
    refine ⟨stampEmailed stampNow (mpUpdate b now (markPaidReceiptNo inv (mpPaidAt b now)) inv),
      ?_, rfl, rfl, rfl, rfl, ?_⟩
    · simp only [hres, if_true]
      exact findInvoice_update_self _ id (stampEmailed stampNow) (fun i => rfl) _ hs1
    · simp [hres, stampEmailed]
  | false =>
    refine ⟨mpUpdate b now (markPaidReceiptNo inv (mpPaidAt b now)) inv, ?_, rfl, rfl, rfl, rfl, ?_⟩
    · simp only [hres, if_false]
      exact hs1
    · simp [hres, mpUpdate]

/-! ## Concrete fixtures for witnesses and counterexamples -/

/-- An environment with the email provider not configured: the email step is
skipped, which keeps concrete evaluation small. -/
def envNoMail : Env :=
  { RESEND_API_KEY := none, RESEND_FROM := none, dbConfigured := true }

/-- An unpaid invoice fixture. -/
def invFix : Invoice :=
  { id := 1, invoice_no := "INV-7", customer_id := some 1, programme := "lessons",
    subtotal := some 100, travel_fee := some 0, total := some 120,
    deposit_amount := some 10, items := [], notes := none, due_date := none,
    paid_at := none, paid_method := none, paid_ref := none,
    receipt_no := none, emailed_receipt_at := none }

/-- A paid invoice fixture with a receipt already issued and emailed. -/
def invPaidFix : Invoice :=
  { invFix with
    id := 2,
    invoice_no := "INV-8",
    paid_at := some "2026-01-02T10:00:00Z",
    paid_method := some "Bank Transfer",
    paid_ref := some "ref-1",
    receipt_no := some "RCPT-INV-8-20260102",
    emailed_receipt_at := some "2026-01-02T10:00:05Z" }

/-- A customer fixture. -/
def custFix : Customer :=
  { id := 1, name := "Ann", email := some "ann@example.com", address := none, phone := none }

/-- A store holding `custFix`, `invFix` and `invPaidFix`. -/
def storeFix : Store :=
  { customers := [custFix], invoices := [invFix, invPaidFix],
    nextCustomerId := 2, nextInvoiceId := 3 }

/-- The empty store. -/
def storeEmpty : Store :=
  { customers := [], invoices := [], nextCustomerId := 1, nextInvoiceId := 1 }

/-- An invoice whose `receipt_no` is the empty string: non-null, but falsy
for JS truthiness. -/
def invEmptyRcpt : Invoice :=
  { invFix with id := 3, invoice_no := "INV-9", receipt_no := some "" }

/-- A store holding only `invEmptyRcpt`. -/
def storeEmptyRcpt : Store :=
  { customers := [custFix], invoices := [invEmptyRcpt],
    nextCustomerId := 2, nextInvoiceId := 4 }

/-- A successful provider response. -/
def fetchOk : FetchResult := { ok := true, status := 200, errText := "" }

/-- A failed provider response (provider returned 500). -/
def fetchFail : FetchResult := { ok := false, status := 500, errText := "boom" }

/-! ## C3 -/

/-- C3: a mark-paid call whose invoice id has no row in the store returns a
404 not-found error response and performs no write: the store (in particular
the invoices table) is returned unchanged. -/
theorem markPaid_missing_id_404_no_write (env : Env) (s : Store) (id : ℕ)
    (body : Option MarkPaidBody) (now stampNow : String) (fetch : FetchResult)
    (henv : env.dbConfigured = true) (hfind : findInvoice s id = none) :
    (markPaid env s id body now stampNow fetch).1.status = 404 ∧
    (markPaid env s id body now stampNow fetch).1.ok = false ∧
    (markPaid env s id body now stampNow fetch).1.error = some "Invoice not found" ∧
    (markPaid env s id body now stampNow fetch).2 = s := by
  refine ⟨?_, ?_, ?_, ?_⟩ <;> simp [markPaid, bad, henv, hfind]

/-- Witness for C3 at a concrete store with no row for id 9. -/
theorem markPaid_missing_id_404_no_write_witness :
    (markPaid envNoMail storeEmpty 9 none "2026-01-01T00:00:00Z" "t" fetchOk).1.status = 404 ∧
    (markPaid envNoMail storeEmpty 9 none "2026-01-01T00:00:00Z" "t" fetchOk).1.ok = false ∧
    (markPaid envNoMail storeEmpty 9 none "2026-01-01T00:00:00Z" "t" fetchOk).1.error =
      some "Invoice not found" ∧
    (markPaid envNoMail storeEmpty 9 none "2026-01-01T00:00:00Z" "t" fetchOk).2 = storeEmpty :=
  markPaid_missing_id_404_no_write envNoMail storeEmpty 9 none "2026-01-01T00:00:00Z" "t"
    fetchOk rfl rfl

/-! ## C4 -/

/-- C4: mark-unpaid with a syntactically valid numeric id always responds
ok, clears `paid_at`, `paid_method` and `paid_ref` of the targeted row, and
changes nothing else: the customers table, every other invoice row, and
every other field of the targeted row — in particular `receipt_no` and
`emailed_receipt_at` — keep their prior values. -/
theorem markUnpaid_clears_only_payment_fields (env : Env) (s : Store) (id : ℕ)
    (henv : env.dbConfigured = true) :
    (markUnpaid env s id).1.ok = true ∧
    (markUnpaid env s id).1.status = 200 ∧
    (markUnpaid env s id).2.customers = s.customers ∧
    (∀ j, j ≠ id → findInvoice (markUnpaid env s id).2 j = findInvoice s j) ∧
    (findInvoice s id = none → (markUnpaid env s id).2 = s) ∧
    (∀ inv, findInvoice s id = some inv →
      findInvoice (markUnpaid env s id).2 id =
        some { inv with paid_at := none, paid_method := none, paid_ref := none }) := by
  have hun : markUnpaid env s id =
      ({ status := 200, ok := true, id := some id },
       updateInvoices s id (fun i =>
         { i with paid_at := none, paid_method := none, paid_ref := none })) := by
    simp [markUnpaid, henv]
  rw [hun]
  refine ⟨rfl, rfl, rfl, ?_, ?_, ?_⟩
  · exact fun j hj => findInvoice_update_other s id j
      (fun i => { i with paid_at := none, paid_method := none, paid_ref := none })
      (fun i => rfl) hj
  · exact fun hnone => updateInvoices_not_found s id
      (fun i => { i with paid_at := none, paid_method := none, paid_ref := none }) hnone
  · exact fun inv hinv => findInvoice_update_self s id
      (fun i => { i with paid_at := none, paid_method := none, paid_ref := none })
      (fun i => rfl) inv hinv

/-- Witness for C4 at a concrete paid invoice: the payment fields are
cleared while `receipt_no` and `emailed_receipt_at` survive. -/
theorem markUnpaid_clears_only_payment_fields_witness :
    findInvoice (markUnpaid envNoMail storeFix 2).2 2 =
      some { invPaidFix with paid_at := none, paid_method := none, paid_ref := none } :=
  (markUnpaid_clears_only_payment_fields envNoMail storeFix 2 rfl).2.2.2.2.2 invPaidFix rfl

/-! ## C2 -/

/-- C2: once the invoice is found and the payment update of step 3 applies,
mark-paid responds ok (HTTP 200) regardless of the email step's outcome; a
failed or skipped send is reported as `emailed = false` with a descriptive
non-empty `emailError` and leaves the row's `emailed_receipt_at` unchanged;
only a confirmed successful send stamps `emailed_receipt_at` with the
current time. -/
theorem markPaid_ok_email_auxiliary (env : Env) (s : Store) (id : ℕ)
    (body : Option MarkPaidBody) (now stampNow : String) (fetch : FetchResult)
    (henv : env.dbConfigured = true) (inv : Invoice)
    (hfind : findInvoice s id = some inv) :
    (markPaid env s id body now stampNow fetch).1.ok = true ∧
    (markPaid env s id body now stampNow fetch).1.status = 200 ∧
    ((markPaid env s id body now stampNow fetch).1.emailed = some false →
      (∃ e, (markPaid env s id body now stampNow fetch).1.emailError = some (some e) ∧
        e ≠ "") ∧
      ∃ inv2, findInvoice (markPaid env s id body now stampNow fetch).2 id = some inv2 ∧
        inv2.emailed_receipt_at = inv.emailed_receipt_at) ∧
    ((markPaid env s id body now stampNow fetch).1.emailed = some true →
      ∃ inv2, findInvoice (markPaid env s id body now stampNow fetch).2 id = some inv2 ∧
        inv2.emailed_receipt_at = some stampNow) := by
  have E := markPaid_db_found env s id body now stampNow fetch henv inv hfind
  obtain ⟨inv2, hfind2, _, _, _, _, hstamp⟩ :=
    markPaid_persisted env s id body now stampNow fetch henv inv hfind
  refine ⟨by rw [E], by rw [E], ?_, ?_⟩
  · intro hfalse
    constructor
    · have hres : (sendReceiptEmail env
          (updateInvoices s id (mpUpdate body now (markPaidReceiptNo inv (mpPaidAt body now))))
          id (some (markPaidReceiptNo inv (mpPaidAt body now))) now fetch).emailed = false := by
        rw [E] at hfalse
        simpa using hfalse
      obtain ⟨e, he, hne⟩ := sendReceiptEmail_error_descriptive _ _ _ _ _ _ hres
      refine ⟨e, ?_, hne⟩
      rw [E]
      exact congrArg some he
    · refine ⟨inv2, hfind2, ?_⟩
      rw [hstamp, if_neg]
      simp [hfalse]
  · intro htrue
    exact ⟨inv2, hfind2, by rw [hstamp, if_pos htrue]⟩

/-- Witness for C2 at a concrete invoice with the provider unconfigured (a
skipped send): the response reports `ok` with `emailed = false`. -/
theorem markPaid_ok_email_auxiliary_witness :
    (markPaid envNoMail storeFix 1 none "2026-01-01T00:00:00Z" "t" fetchOk).1.ok = true ∧
    ((markPaid envNoMail storeFix 1 none "2026-01-01T00:00:00Z" "t" fetchOk).1.emailed =
        some false →
      (∃ e, (markPaid envNoMail storeFix 1 none "2026-01-01T00:00:00Z" "t"
          fetchOk).1.emailError = some (some e) ∧ e ≠ "") ∧
      ∃ inv2, findInvoice
          (markPaid envNoMail storeFix 1 none "2026-01-01T00:00:00Z" "t" fetchOk).2 1 =
          some inv2 ∧
        inv2.emailed_receipt_at = invFix.emailed_receipt_at) :=
  ⟨(markPaid_ok_email_auxiliary envNoMail storeFix 1 none "2026-01-01T00:00:00Z" "t"
      fetchOk rfl invFix rfl).1,
   (markPaid_ok_email_auxiliary envNoMail storeFix 1 none "2026-01-01T00:00:00Z" "t"
      fetchOk rfl invFix rfl).2.2.1⟩

/-! ## C1 (corrected) -/

/-- After a state in which the stored receipt number is a non-empty string,
a mark-unpaid followed by mark-paid leaves that receipt number in place
(shared helper for the pay→unpay→pay round trip). -/
theorem payUnpayPay_keeps_receipt (env : Env) (s : Store) (id : ℕ)
    (henv : env.dbConfigured = true)
    (inv2 : Invoice) (hfind2 : findInvoice s id = some inv2)
    (r : String) (hr : inv2.receipt_no = some r) (hrne : r ≠ "")
    (b2 : Option MarkPaidBody) (now2 stamp2 : String) (fetch2 : FetchResult) :
    ∃ inv3,
      findInvoice (markPaid env (markUnpaid env s id).2 id b2 now2 stamp2 fetch2).2 id =
        some inv3 ∧
      inv3.receipt_no = some r := by
  have h1 : (markUnpaid env s id).2 = updateInvoices s id (fun i =>
      { i with paid_at := none, paid_method := none, paid_ref := none }) := by
    simp [markUnpaid, henv]
  have hu : findInvoice (markUnpaid env s id).2 id =
      some { inv2 with paid_at := none, paid_method := none, paid_ref := none } := by
    rw [h1]
    exact findInvoice_update_self s id
      (fun i => { i with paid_at := none, paid_method := none, paid_ref := none })
      (fun i => rfl) inv2 hfind2
  obtain ⟨inv3, hf3, hrno3, _, _, _, _⟩ :=
    markPaid_persisted env _ id b2 now2 stamp2 fetch2 henv _ hu
  refine ⟨inv3, hf3, ?_⟩
  rw [hrno3]
  congr 1
  simp [markPaidReceiptNo, truthyOptStr, hr, hrne]

/-- C1 counterexample: an existing invoice whose `receipt_no` is the
non-null empty string is not reused by mark-paid even though nothing cleared
it: the persisted receipt number becomes the freshly derived
`RCPT-INV-9-20260102`, differing from the existing non-null value. -/
theorem markPaid_receipt_reuse_counterexample :
    invEmptyRcpt.receipt_no = some "" ∧
    findInvoice storeEmptyRcpt 3 = some invEmptyRcpt ∧
    Option.map (fun i => i.receipt_no)
      (findInvoice (markPaid envNoMail storeEmptyRcpt 3
        (some { paid_at := some "2026-01-02T00:00:00Z" }) "t" "t" fetchOk).2 3) =
      some (some "RCPT-INV-9-20260102") ∧
    some "RCPT-INV-9-20260102" ≠ some "" := by
  refine ⟨rfl, rfl, by decide, by decide⟩

/-- C1 (amended): mark-paid reuses an existing non-null **and non-empty**
(JS-truthy) `receipt_no` in both the response and the persisted row, and a
pay→unpay→pay cycle keeps it; when `receipt_no` is null — or the empty
string, which JS truthiness also treats as unset — the persisted receipt
number is the deterministically derived
`RCPT-<invoice_no>-<payment date, first 10 chars, "-" removed>`, and that
derived value then survives later pay/unpay/pay cycles. -/
theorem markPaid_receipt_number_amended (env : Env) (s : Store) (id : ℕ)
    (body : Option MarkPaidBody) (now stampNow : String) (fetch : FetchResult)
    (henv : env.dbConfigured = true) (inv : Invoice)
    (hfind : findInvoice s id = some inv) :
    (∀ v, inv.receipt_no = some v → v ≠ "" →
      (markPaid env s id body now stampNow fetch).1.receipt_no = some v ∧
      (∃ inv2, findInvoice (markPaid env s id body now stampNow fetch).2 id = some inv2 ∧
        inv2.receipt_no = some v) ∧
      (∀ b2 now2 stamp2 fetch2, ∃ inv3,
        findInvoice (markPaid env
          (markUnpaid env (markPaid env s id body now stampNow fetch).2 id).2
          id b2 now2 stamp2 fetch2).2 id = some inv3 ∧
        inv3.receipt_no = some v)) ∧
    ((inv.receipt_no = none ∨ inv.receipt_no = some "") →
      (markPaid env s id body now stampNow fetch).1.receipt_no =
        some ("RCPT-" ++ inv.invoice_no ++ "-" ++ compactDate (mpPaidAt body now)) ∧
      (∃ inv2, findInvoice (markPaid env s id body now stampNow fetch).2 id = some inv2 ∧
        inv2.receipt_no =
          some ("RCPT-" ++ inv.invoice_no ++ "-" ++ compactDate (mpPaidAt body now))) ∧
      (∀ b2 now2 stamp2 fetch2, ∃ inv3,
        findInvoice (markPaid env
          (markUnpaid env (markPaid env s id body now stampNow fetch).2 id).2
          id b2 now2 stamp2 fetch2).2 id = some inv3 ∧
        inv3.receipt_no =
          some ("RCPT-" ++ inv.invoice_no ++ "-" ++ compactDate (mpPaidAt body now)))) := by
  have E := markPaid_db_found env s id body now stampNow fetch henv inv hfind
  obtain ⟨inv2, hfind2, hrno2, _, _, _, _⟩ :=
    markPaid_persisted env s id body now stampNow fetch henv inv hfind
  constructor
  · intro v hv hvne
    have hkeep : markPaidReceiptNo inv (mpPaidAt body now) = v := by
      simp [markPaidReceiptNo, truthyOptStr, hv, hvne]
    refine ⟨by rw [E]; simpa using congrArg some hkeep, ⟨inv2, hfind2, by rw [hrno2, hkeep]⟩, ?_⟩
    intro b2 now2 stamp2 fetch2
    exact payUnpayPay_keeps_receipt env _ id henv inv2 hfind2 v
      (by rw [hrno2, hkeep]) hvne b2 now2 stamp2 fetch2
  · intro hnull
    have hder : markPaidReceiptNo inv (mpPaidAt body now) =
        "RCPT-" ++ inv.invoice_no ++ "-" ++ compactDate (mpPaidAt body now) := by
      rcases hnull with h | h <;> simp [markPaidReceiptNo, truthyOptStr, h]
    have hderne : ("RCPT-" ++ inv.invoice_no ++ "-" ++ compactDate (mpPaidAt body now)) ≠ "" :=
      append_ne_empty_left _ _ (append_ne_empty_left _ _
        (append_ne_empty_left _ _ (by decide)))
    refine ⟨by rw [E]; simpa using congrArg some hder, ⟨inv2, hfind2, by rw [hrno2, hder]⟩, ?_⟩
    intro b2 now2 stamp2 fetch2
    exact payUnpayPay_keeps_receipt env _ id henv inv2 hfind2 _
      (by rw [hrno2, hder]) hderne b2 now2 stamp2 fetch2

/-- Witness for the amended C1: reuse of a concrete non-empty receipt number
on invoice 2, and fresh derivation on invoice 1 (null receipt number). -/
theorem markPaid_receipt_number_amended_witness :
    (markPaid envNoMail storeFix 2 none "2026-02-03T00:00:00Z" "t" fetchOk).1.receipt_no =
      some "RCPT-INV-8-20260102" ∧
    (markPaid envNoMail storeFix 1 (some { paid_at := some "2026-02-03T00:00:00Z" })
        "t" "t" fetchOk).1.receipt_no =
      some ("RCPT-" ++ invFix.invoice_no ++ "-" ++
        compactDate (mpPaidAt (some { paid_at := some "2026-02-03T00:00:00Z" }) "t")) :=
  ⟨((markPaid_receipt_number_amended envNoMail storeFix 2 none "2026-02-03T00:00:00Z" "t"
      fetchOk rfl invPaidFix rfl).1 "RCPT-INV-8-20260102" rfl (by decide)).1,
   ((markPaid_receipt_number_amended envNoMail storeFix 1
      (some { paid_at := some "2026-02-03T00:00:00Z" }) "t" "t"
      fetchOk rfl invFix rfl).2 (Or.inl rfl)).1⟩

/-! ## Lemmas about the upsert steps -/

theorem upsertCustomer_invoices (s : Store) (cn ce ca cp : String) :
    (upsertCustomer s cn ce ca cp).2.invoices = s.invoices := by
  unfold upsertCustomer
  split
  · split <;> rfl
  · rfl

theorem upsertCustomer_no_email (s : Store) (cn ca cp : String) :
    upsertCustomer s cn "" ca cp =
      (some s.nextCustomerId,
       { s with
         customers := s.customers ++
           [{ id := s.nextCustomerId, name := cn, email := none,
              address := strOrNull ca, phone := strOrNull cp }]
         nextCustomerId := s.nextCustomerId + 1 }) := by
  simp [upsertCustomer]

theorem upsertInvoiceRow_customers (s1 : Store) (invoiceNo : String) (cid : Option ℕ)
    (prog : String) (sub tf tot dep : Option ℚ) (items : List Item)
    (notes dd : Option String) :
    (upsertInvoiceRow s1 invoiceNo cid prog sub tf tot dep items notes dd).customers =
      s1.customers := by
  unfold upsertInvoiceRow
  split <;> rfl

theorem upsertInvoiceRow_find (s1 : Store) (invoiceNo : String) (cid : Option ℕ)
    (prog : String) (sub tf tot dep : Option ℚ) (items : List Item)
    (notes dd : Option String) :
    ∃ inv',
      (upsertInvoiceRow s1 invoiceNo cid prog sub tf tot dep items notes dd).invoices.find?
        (fun i => i.invoice_no == invoiceNo) = some inv' ∧
      inv'.customer_id = cid ∧ inv'.programme = prog ∧ inv'.subtotal = sub ∧
      inv'.travel_fee = tf ∧ inv'.total = tot ∧ inv'.deposit_amount = dep ∧
      inv'.items = items ∧ inv'.notes = notes ∧ inv'.due_date = dd := by
  unfold upsertInvoiceRow
  cases hex : s1.invoices.find? (fun i => i.invoice_no == invoiceNo) with
  | some ex =>
    have hpex : (ex.invoice_no == invoiceNo) = true := by
      have hp := List.find?_some hex
      simpa using hp
    refine ⟨conflictUpdate cid prog sub tf tot dep items notes dd ex,
      ?_, rfl, rfl, rfl, rfl, rfl, rfl, rfl, rfl, rfl⟩
    simp only [hex]
    have hcomm := find_map_comm s1.invoices
      (fun i => if i.invoice_no == invoiceNo then
          conflictUpdate cid prog sub tf tot dep items notes dd i
        else i)
      (fun i => i.invoice_no == invoiceNo)
      (fun x => by by_cases hx : (x.invoice_no == invoiceNo) = true <;>
        simp [hx, conflictUpdate])
    rw [hcomm, hex, Option.map_some']
    simp [hpex]
  | none =>
    simp only [hex]
    rw [find?_append_none _ _ _ hex]
    exact ⟨_, List.find?_cons_of_pos _ (by simp), rfl, rfl, rfl, rfl, rfl, rfl, rfl, rfl, rfl⟩

theorem invoiceUpsert_valid (env : Env) (s : Store) (b : UpsertBody)
    (henv : env.dbConfigured = true)
    (hno : safeStr b.invoice_no ≠ "")
    (hname : safeStr (b.customer.getD {}).name ≠ "") :
    invoiceUpsert env s (some b) =
      ({ status := 200, ok := true,
         id := ((upsertInvoiceRow
             (upsertCustomer s (safeStr (b.customer.getD {}).name)
               (safeStr (b.customer.getD {}).email) (safeStr (b.customer.getD {}).address)
               (safeStr (b.customer.getD {}).phone)).2
             (safeStr b.invoice_no)
             (upsertCustomer s (safeStr (b.customer.getD {}).name)
               (safeStr (b.customer.getD {}).email) (safeStr (b.customer.getD {}).address)
               (safeStr (b.customer.getD {}).phone)).1
             (jsOrStr (safeStr b.programme) "lessons")
             (numOr0 b.subtotal) (numOr0 b.travel_fee) (numOr0 b.total)
             (numOr0 b.deposit_amount) b.items
             (strOrNull (safeStr b.notes)) (strOrNull (safeStr b.due_date))).invoices.find?
           (fun i => i.invoice_no == safeStr b.invoice_no)).map (fun i => i.id),
         invoice_no := some (safeStr b.invoice_no),
         customer_id := some (upsertCustomer s (safeStr (b.customer.getD {}).name)
           (safeStr (b.customer.getD {}).email) (safeStr (b.customer.getD {}).address)
           (safeStr (b.customer.getD {}).phone)).1 },
       upsertInvoiceRow
         (upsertCustomer s (safeStr (b.customer.getD {}).name)
           (safeStr (b.customer.getD {}).email) (safeStr (b.customer.getD {}).address)
           (safeStr (b.customer.getD {}).phone)).2
         (safeStr b.invoice_no)
         (upsertCustomer s (safeStr (b.customer.getD {}).name)
           (safeStr (b.customer.getD {}).email) (safeStr (b.customer.getD {}).address)
           (safeStr (b.customer.getD {}).phone)).1
         (jsOrStr (safeStr b.programme) "lessons")
         (numOr0 b.subtotal) (numOr0 b.travel_fee) (numOr0 b.total)
         (numOr0 b.deposit_amount) b.items
         (strOrNull (safeStr b.notes)) (strOrNull (safeStr b.due_date))) := by
  simp [invoiceUpsert, henv, hno, hname]

/-! ## C7 (corrected) -/

/-- C7 counterexample: mark-paid does not reject an unparseable JSON body —
the malformed body is replaced by the empty object, the call succeeds
(HTTP 200, ok) and the payment write happens: invoice 1's `paid_at`
(previously null) is set. -/
theorem invalid_json_markPaid_counterexample :
    invFix.paid_at = none ∧
    (markPaid envNoMail storeFix 1 none "2026-01-01T00:00:00Z" "t" fetchOk).1.status = 200 ∧
    (markPaid envNoMail storeFix 1 none "2026-01-01T00:00:00Z" "t" fetchOk).1.ok = true ∧
    Option.map (fun i => i.paid_at)
      (findInvoice (markPaid envNoMail storeFix 1 none "2026-01-01T00:00:00Z" "t"
        fetchOk).2 1) = some (some "2026-01-01T00:00:00Z") := by
  refine ⟨rfl, by decide, by decide, by decide⟩

/-- C7 (amended): a malformed JSON body yields a 400 Invalid-JSON error and
no store mutation for customer create ("Invalid JSON body") and invoice
upsert ("Invalid JSON"); the mark-paid route instead substitutes the empty
object for an unparseable body and proceeds with defaulted payment
fields. -/
theorem invalid_json_handling_amended (env : Env) (s : Store)
    (henv : env.dbConfigured = true) :
    (customersPost s none).1.status = 400 ∧
    (customersPost s none).1.ok = false ∧
    (customersPost s none).1.error = some "Invalid JSON body" ∧
    (customersPost s none).2 = s ∧
    (invoiceUpsert env s none).1.status = 400 ∧
    (invoiceUpsert env s none).1.ok = false ∧
    (invoiceUpsert env s none).1.error = some "Invalid JSON" ∧
    (invoiceUpsert env s none).2 = s ∧
    (∀ id now stampNow fetch,
      markPaid env s id none now stampNow fetch =
        markPaid env s id (some {}) now stampNow fetch) := by
  refine ⟨rfl, rfl, rfl, rfl, ?_, ?_, ?_, ?_, fun id now stampNow fetch => rfl⟩ <;>
    simp [invoiceUpsert, bad, henv]

/-- Witness: the 400/no-write behavior at the empty store. -/
theorem invalid_json_handling_amended_witness :
    (customersPost storeEmpty none).1.status = 400 ∧
    (invoiceUpsert envNoMail storeEmpty none).1.error = some "Invalid JSON" ∧
    (invoiceUpsert envNoMail storeEmpty none).2 = storeEmpty :=
  ⟨(invalid_json_handling_amended envNoMail storeEmpty rfl).1,
   (invalid_json_handling_amended envNoMail storeEmpty rfl).2.2.2.2.2.2.1,
   (invalid_json_handling_amended envNoMail storeEmpty rfl).2.2.2.2.2.2.2.1⟩

/-! ## C8 (corrected) -/

/-- An upsert body whose subtotal is the truthy non-numeric string "abc". -/
def bodyAbc : UpsertBody :=
  { invoice_no := some "INV-N"
    subtotal := JVal.jstr "abc"
    customer := some { name := some "Bob" } }

/-- An upsert body with every numeric field absent. -/
def bodyBob : UpsertBody :=
  { invoice_no := some "INV-M"
    customer := some { name := some "Bob" } }

/-- C8 counterexample: the non-numeric but truthy string input "abc" for
subtotal is persisted as NaN (the result of JS `Number("abc")`), not as
0. -/
theorem upsert_numeric_default_counterexample :
    numOr0 bodyAbc.subtotal = none ∧
    Option.map (fun i => i.subtotal)
      ((invoiceUpsert envNoMail storeEmpty (some bodyAbc)).2.invoices.find?
        (fun i => i.invoice_no == "INV-N")) = some none ∧
    (none : Option ℚ) ≠ some 0 := by
  refine ⟨by decide, by decide, by decide⟩

/-- C8 (amended): each numeric input field of the invoice upsert is
persisted through the JS coercion `Number(x || 0)`: a falsy input (absent,
null, 0, the empty string, false, NaN) is stored as 0, while a truthy input
is stored as its `Number(...)` coercion — which for a non-numeric string is
NaN rather than 0. -/
theorem upsert_numeric_defaults_amended (env : Env) (s : Store) (b : UpsertBody)
    (henv : env.dbConfigured = true)
    (hno : safeStr b.invoice_no ≠ "")
    (hname : safeStr (b.customer.getD {}).name ≠ "") :
    ∃ inv',
      (invoiceUpsert env s (some b)).2.invoices.find?
        (fun i => i.invoice_no == safeStr b.invoice_no) = some inv' ∧
      inv'.subtotal = numOr0 b.subtotal ∧
      inv'.travel_fee = numOr0 b.travel_fee ∧
      inv'.total = numOr0 b.total ∧
      inv'.deposit_amount = numOr0 b.deposit_amount ∧
      (b.subtotal.truthy = false → inv'.subtotal = some 0) ∧
      (b.travel_fee.truthy = false → inv'.travel_fee = some 0) ∧
      (b.total.truthy = false → inv'.total = some 0) ∧
      (b.deposit_amount.truthy = false → inv'.deposit_amount = some 0) := by
  rw [invoiceUpsert_valid env s b henv hno hname]
  obtain ⟨inv', hf, _, _, hsub, htf, htot, hdep, _, _, _⟩ :=
    upsertInvoiceRow_find
      (upsertCustomer s (safeStr (b.customer.getD {}).name)
        (safeStr (b.customer.getD {}).email) (safeStr (b.customer.getD {}).address)
        (safeStr (b.customer.getD {}).phone)).2
      (safeStr b.invoice_no)
      (upsertCustomer s (safeStr (b.customer.getD {}).name)
        (safeStr (b.customer.getD {}).email) (safeStr (b.customer.getD {}).address)
        (safeStr (b.customer.getD {}).phone)).1
      (jsOrStr (safeStr b.programme) "lessons")
      (numOr0 b.subtotal) (numOr0 b.travel_fee) (numOr0 b.total)
      (numOr0 b.deposit_amount) b.items
      (strOrNull (safeStr b.notes)) (strOrNull (safeStr b.due_date))
  exact ⟨inv', hf, hsub, htf, htot, hdep,
    fun h => by rw [hsub, numOr0_falsy _ h],
    fun h => by rw [htf, numOr0_falsy _ h],
    fun h => by rw [htot, numOr0_falsy _ h],
    fun h => by rw [hdep, numOr0_falsy _ h]⟩

/-- Witness for the amended C8: an upsert with all numeric fields absent
stores subtotal 0. -/
theorem upsert_numeric_defaults_amended_witness :
    ∃ inv',
      (invoiceUpsert envNoMail storeEmpty (some bodyBob)).2.invoices.find?
        (fun i => i.invoice_no == safeStr bodyBob.invoice_no) = some inv' ∧
      inv'.subtotal = some 0 := by
  obtain ⟨inv', hf, _, _, _, _, hs, _, _, _⟩ :=
    upsert_numeric_defaults_amended envNoMail storeEmpty bodyBob rfl (by decide) (by decide)
  exact ⟨inv', hf, hs rfl⟩

/-! ## C10 -/

/-- A customer row named Bob already present in the store. -/
def custBob : Customer :=
  { id := 1, name := "Bob", email := none, address := none, phone := none }

/-- A store already containing a customer identical (but for id) to the one
`bodyBob` describes. -/
def storeBob : Store :=
  { customers := [custBob], invoices := [], nextCustomerId := 2, nextInvoiceId := 1 }

/-- C10: an invoice upsert whose customer has a non-empty name but empty
email performs no lookup and always inserts a brand-new customer row with
the next fresh id — even when an identical customer already exists — and
points the upserted invoice's customer_id at that new row, so repeated
upserts keep creating additional customer records. -/
theorem upsert_no_email_inserts_new_customer (env : Env) (s : Store) (b : UpsertBody)
    (henv : env.dbConfigured = true)
    (hno : safeStr b.invoice_no ≠ "")
    (hname : safeStr (b.customer.getD {}).name ≠ "")
    (hemail : safeStr (b.customer.getD {}).email = "") :
    (invoiceUpsert env s (some b)).2.customers =
      s.customers ++
        [{ id := s.nextCustomerId, name := safeStr (b.customer.getD {}).name,
           email := none, address := strOrNull (safeStr (b.customer.getD {}).address),
           phone := strOrNull (safeStr (b.customer.getD {}).phone) }] ∧
    (invoiceUpsert env s (some b)).1.customer_id = some (some s.nextCustomerId) ∧
    ∃ inv',
      (invoiceUpsert env s (some b)).2.invoices.find?
        (fun i => i.invoice_no == safeStr b.invoice_no) = some inv' ∧
      inv'.customer_id = some s.nextCustomerId := by
  rw [invoiceUpsert_valid env s b henv hno hname, hemail, upsertCustomer_no_email]
  refine ⟨?_, rfl, ?_⟩
  · rw [upsertInvoiceRow_customers]
  · obtain ⟨inv', hf, hc, _, _, _, _, _, _, _, _⟩ :=
      upsertInvoiceRow_find
        { s with
          customers := s.customers ++
            [{ id := s.nextCustomerId, name := safeStr (b.customer.getD {}).name,
               email := none, address := strOrNull (safeStr (b.customer.getD {}).address),
               phone := strOrNull (safeStr (b.customer.getD {}).phone) }]
          nextCustomerId := s.nextCustomerId + 1 }
        (safeStr b.invoice_no) (some s.nextCustomerId)
        (jsOrStr (safeStr b.programme) "lessons")
        (numOr0 b.subtotal) (numOr0 b.travel_fee) (numOr0 b.total)
        (numOr0 b.deposit_amount) b.items
        (strOrNull (safeStr b.notes)) (strOrNull (safeStr b.due_date))
    exact ⟨inv', hf, hc⟩

/-- Witness for C10: upserting `bodyBob` into a store that already holds an
identical customer named Bob still appends a second Bob row with fresh
id 2. -/
theorem upsert_no_email_inserts_new_customer_witness :
    (invoiceUpsert envNoMail storeBob (some bodyBob)).2.customers =
      storeBob.customers ++
        [{ id := storeBob.nextCustomerId, name := safeStr (bodyBob.customer.getD {}).name,
           email := none,
           address := strOrNull (safeStr (bodyBob.customer.getD {}).address),
           phone := strOrNull (safeStr (bodyBob.customer.getD {}).phone) }] :=
  (upsert_no_email_inserts_new_customer envNoMail storeBob bodyBob rfl (by decide)
    (by decide) (by decide)).1

/-! ## C9 -/

set_option maxHeartbeats 1600000 in
/-- Whenever `sendReceiptEmail` actually makes the outbound call, the email
it sends is rendered from the joined row with the effective receipt number
`receiptNo || row.receipt_no || derived`. -/
theorem sendReceiptEmail_request (env : Env) (s : Store) (id : ℕ)
    (rno : Option String) (now : String) (fetch : FetchResult)
    (inv : Invoice) (hfind : findInvoice s id = some inv)
    (req : SentEmail)
    (hreq : (sendReceiptEmail env s id rno now fetch).request = some req) :
    req.html = renderReceiptHtml (receiptDataFor inv (findCustomer s inv.customer_id)
      (effReceiptNo rno inv.receipt_no inv.invoice_no now)) ∧
    req.text = renderReceiptText (receiptDataFor inv (findCustomer s inv.customer_id)
      (effReceiptNo rno inv.receipt_no inv.invoice_no now)) := by
  by_cases hcfg : truthyOptStr env.RESEND_API_KEY = true ∧ truthyOptStr env.RESEND_FROM = true
  · by_cases hmail :
        truthyOptStr ((findCustomer s inv.customer_id).bind (fun c => c.email)) = true
    · by_cases hok : fetch.ok = true
      · simp [sendReceiptEmail, hcfg, hfind, hmail, hok] at hreq
        rw [← hreq]
        exact ⟨rfl, rfl⟩
      · simp [sendReceiptEmail, hcfg, hfind, hmail, hok] at hreq
        rw [← hreq]
        exact ⟨rfl, rfl⟩
    · simp [sendReceiptEmail, hcfg, hfind, hmail] at hreq
  · simp [sendReceiptEmail, hcfg] at hreq

/-- What the email-receipt route computes when the stored receipt number is
null: the send result for a null `receiptNo` argument, with
`emailed_receipt_at` stamped only on success. -/
theorem emailReceipt_unfold (env : Env) (s : Store) (id : ℕ)
    (now stampNow : String) (fetch : FetchResult)
    (henv : env.dbConfigured = true) (inv : Invoice)
    (hfind : findInvoice s id = some inv) (hrno : inv.receipt_no = none) :
    emailReceipt env s id now stampNow fetch =
      ({ status := 200, ok := true, id := some id,
         emailed := some (sendReceiptEmail env s id none now fetch).emailed,
         error := if truthyOptStr (sendReceiptEmail env s id none now fetch).error then
             (sendReceiptEmail env s id none now fetch).error
           else none },
       if (sendReceiptEmail env s id none now fetch).emailed then
         updateInvoices s id (stampEmailed stampNow)
       else s) := by
  simp [emailReceipt, henv, hfind, hrno, truthyOptStr]

/-- C9: an email-receipt call on an existing invoice whose stored
`receipt_no` is null renders and sends (when the outbound call is made at
all) with the freshly derived `RCPT-<invoice_no>-<compact current date>`
that is never written back: the route leaves `receipt_no`, `paid_at`,
`paid_method` and `paid_ref` (and every other row and the customers table)
unchanged, and writes only `emailed_receipt_at`, only when the send is
confirmed successful. -/
theorem emailReceipt_fresh_number_frame (env : Env) (s : Store) (id : ℕ)
    (now stampNow : String) (fetch : FetchResult)
    (henv : env.dbConfigured = true) (inv : Invoice)
    (hfind : findInvoice s id = some inv) (hrno : inv.receipt_no = none) :
    (∀ req, (sendReceiptEmail env s id none now fetch).request = some req →
      req.html = renderReceiptHtml (receiptDataFor inv (findCustomer s inv.customer_id)
        ("RCPT-" ++ inv.invoice_no ++ "-" ++ compactDate now)) ∧
      req.text = renderReceiptText (receiptDataFor inv (findCustomer s inv.customer_id)
        ("RCPT-" ++ inv.invoice_no ++ "-" ++ compactDate now))) ∧
    (emailReceipt env s id now stampNow fetch).1.ok = true ∧
    (emailReceipt env s id now stampNow fetch).1.emailed =
      some (sendReceiptEmail env s id none now fetch).emailed ∧
    (emailReceipt env s id now stampNow fetch).2.customers = s.customers ∧
    (∀ j, j ≠ id →
      findInvoice (emailReceipt env s id now stampNow fetch).2 j = findInvoice s j) ∧
    ∃ inv2, findInvoice (emailReceipt env s id now stampNow fetch).2 id = some inv2 ∧
      inv2.receipt_no = none ∧
      inv2.paid_at = inv.paid_at ∧
      inv2.paid_method = inv.paid_method ∧
      inv2.paid_ref = inv.paid_ref ∧
      inv2.emailed_receipt_at =
        (if (sendReceiptEmail env s id none now fetch).emailed then some stampNow
         else inv.emailed_receipt_at) := by
  have hder : effReceiptNo none inv.receipt_no inv.invoice_no now =
      "RCPT-" ++ inv.invoice_no ++ "-" ++ compactDate now := by
    simp [effReceiptNo, hrno, truthyOptStr]
  have hE := emailReceipt_unfold env s id now stampNow fetch henv inv hfind hrno
  refine ⟨?_, ?_, ?_, ?_, ?_, ?_⟩
  · intro req hreq
    have hr := sendReceiptEmail_request env s id none now fetch inv hfind req hreq
    rw [hder] at hr
    exact hr
  · rw [hE]
  · rw [hE]
  · rw [hE]
    cases hem : (sendReceiptEmail env s id none now fetch).emailed <;>
      simp [hem, updateInvoices_customers]
  · intro j hj
    rw [hE]
    cases hem : (sendReceiptEmail env s id none now fetch).emailed
    · simp [hem]
    · simp only [hem, if_true]
      exact findInvoice_update_other s id j (stampEmailed stampNow) (fun i => rfl) hj
  · rw [hE]
    cases hem : (sendReceiptEmail env s id none now fetch).emailed
    · exact ⟨inv, by simp [hem, hfind], hrno, rfl, rfl, rfl, by simp [hem]⟩
    · refine ⟨stampEmailed stampNow inv, ?_, hrno, rfl, rfl, rfl, by simp [hem, stampEmailed]⟩
      simp only [hem, if_true]
      exact findInvoice_update_self s id (stampEmailed stampNow) (fun i => rfl) inv hfind

/-- Witness for C9 at a concrete unconfigured-email environment: the route
reports a skipped send and leaves the row untouched. -/
theorem emailReceipt_fresh_number_frame_witness :
    (emailReceipt envNoMail storeFix 1 "2026-05-06T00:00:00Z" "t" fetchOk).1.ok = true ∧
    ∃ inv2,
      findInvoice (emailReceipt envNoMail storeFix 1 "2026-05-06T00:00:00Z" "t" fetchOk).2 1 =
        some inv2 ∧
      inv2.receipt_no = none :=
  ⟨(emailReceipt_fresh_number_frame envNoMail storeFix 1 "2026-05-06T00:00:00Z" "t" fetchOk
      rfl invFix rfl rfl).2.1,
   (fun h => ⟨h.choose, h.choose_spec.1, h.choose_spec.2.1⟩)
     ((emailReceipt_fresh_number_frame envNoMail storeFix 1 "2026-05-06T00:00:00Z" "t" fetchOk
       rfl invFix rfl rfl).2.2.2.2.2)⟩

/-! ## Containment base lemmas -/

theorem containsStr_append_self (x pat : String) : containsStr (x ++ pat) pat :=
  ⟨x, "", by rw [String.append_empty]⟩

theorem containsStr_append3 (a l s g : String) :
    containsStr (((a ++ l) ++ s) ++ g) ((l ++ s) ++ g) :=
  ⟨a, "", by rw [String.append_empty]; simp [String.append_assoc]⟩

/-! ## C6: substring-occurrence machinery -/

/-- `isPrefList pat l`: `pat` is a prefix of `l`. -/
def isPrefList : List Char → List Char → Bool
  | [], _ => true
  | _ :: _, [] => false
  | a :: as, b :: bs => a == b && isPrefList as bs

/-- `hasSub pat l`: `pat` occurs contiguously in `l`. -/
def hasSub (pat : List Char) : List Char → Bool
  | [] => isPrefList pat []
  | x :: t => isPrefList pat (x :: t) || hasSub pat t

/-- `tailRisk pat l`: some nonempty suffix of `l` is a prefix of `pat`
(such a suffix could complete to an occurrence of `pat` across an append
boundary). -/
def tailRisk (pat : List Char) : List Char → Bool
  | [] => false
  | x :: t => isPrefList (x :: t) pat || tailRisk pat t

/-- The string neither contains `<script>` nor ends in a nonempty prefix of
it — the invariant that is closed under concatenation. -/
def scriptFree (s : String) : Prop :=
  hasSub "<script>".data s.data = false ∧ tailRisk "<script>".data s.data = false

instance (s : String) : Decidable (scriptFree s) := by
  unfold scriptFree
  infer_instance

theorem isPrefList_self_append (pat q : List Char) : isPrefList pat (pat ++ q) = true := by
  induction pat with
  | nil => rfl
  | cons a as ih => simp [isPrefList, ih]

theorem hasSub_of_split (pat : List Char) :
    ∀ p q : List Char, hasSub pat (p ++ (pat ++ q)) = true := by
  intro p
  induction p with
  | nil =>
    intro q
    cases pat with
    | nil => cases q <;> simp [hasSub, isPrefList]
    | cons a as => simp [hasSub, isPrefList, isPrefList_self_append]
  | cons h t ih =>
    intro q
    simp [hasSub, ih q]

theorem isPrefList_append_cases (pat : List Char) :
    ∀ x y : List Char, isPrefList pat (x ++ y) = true →
      isPrefList pat x = true ∨ isPrefList x pat = true := by
  induction pat with
  | nil => intro x y _; exact Or.inl rfl
  | cons p ps ih =>
    intro x y h
    cases x with
    | nil => exact Or.inr rfl
    | cons a as =>
      rw [List.cons_append] at h
      simp only [isPrefList, Bool.and_eq_true, beq_iff_eq] at h
      obtain ⟨rfl, h2⟩ := h
      rcases ih as y h2 with h3 | h3
      · exact Or.inl (by simp [isPrefList, h3])
      · exact Or.inr (by simp [isPrefList, h3])

theorem isPrefList_of_append_left (x : List Char) :
    ∀ (y pat : List Char), isPrefList (x ++ y) pat = true → isPrefList x pat = true := by
  induction x with
  | nil => intro y pat _; rfl
  | cons a as ih =>
    intro y pat h
    cases pat with
    | nil => simp [isPrefList] at h
    | cons p ps =>
      rw [List.cons_append] at h
      simp only [isPrefList, Bool.and_eq_true, beq_iff_eq] at h ⊢
      exact ⟨h.1, ih y ps h.2⟩

theorem hasSub_append_false (pat y : List Char) (hy : hasSub pat y = false) :
    ∀ x : List Char, hasSub pat x = false → tailRisk pat x = false →
      hasSub pat (x ++ y) = false := by
  intro x
  induction x with
  | nil => intro _ _; simpa using hy
  | cons a t ih =>
    intro hx htx
    have hx' : (isPrefList pat (a :: t) || hasSub pat t) = false := hx
    have htx' : (isPrefList (a :: t) pat || tailRisk pat t) = false := htx
    obtain ⟨hx1, hx2⟩ := Bool.or_eq_false_iff.mp hx'
    obtain ⟨ht1, ht2⟩ := Bool.or_eq_false_iff.mp htx'
    rw [List.cons_append]
    show (isPrefList pat (a :: (t ++ y)) || hasSub pat (t ++ y)) = false
    have hfirst : isPrefList pat (a :: (t ++ y)) = false := by
      cases hP : isPrefList pat (a :: (t ++ y)) with
      | false => rfl
      | true =>
        rw [show a :: (t ++ y) = (a :: t) ++ y from rfl] at hP
        rcases isPrefList_append_cases pat (a :: t) y hP with h | h
        · simp [hx1] at h
        · simp [ht1] at h
    rw [hfirst, ih hx2 ht2]
    rfl

theorem tailRisk_append_false (pat y : List Char) (hy : tailRisk pat y = false) :
    ∀ x : List Char, tailRisk pat x = false → tailRisk pat (x ++ y) = false := by
  intro x
  induction x with
  | nil => intro _; simpa using hy
  | cons a t ih =>
    intro hx
    have hx' : (isPrefList (a :: t) pat || tailRisk pat t) = false := hx
    obtain ⟨hx1, hx2⟩ := Bool.or_eq_false_iff.mp hx'
    rw [List.cons_append]
    show (isPrefList (a :: (t ++ y)) pat || tailRisk pat (t ++ y)) = false
    have hfirst : isPrefList (a :: (t ++ y)) pat = false := by
      cases hP : isPrefList (a :: (t ++ y)) pat with
      | false => rfl
      | true =>
        rw [show a :: (t ++ y) = (a :: t) ++ y from rfl] at hP
        have h := isPrefList_of_append_left (a :: t) y pat hP
        simp [hx1] at h
    rw [hfirst, ih hx2]
    rfl

theorem hasSub_false_of_head_not_mem (c : Char) (rest : List Char) :
    ∀ l : List Char, c ∉ l → hasSub (c :: rest) l = false := by
  intro l
  induction l with
  | nil => intro _; rfl
  | cons a t ih =>
    intro h
    have hca : (c == a) = false := by
      refine beq_eq_false_iff_ne.mpr ?_
      intro e
      apply h
      rw [e]
      exact List.mem_cons_self a t
    show (isPrefList (c :: rest) (a :: t) || hasSub (c :: rest) t) = false
    have h1 : isPrefList (c :: rest) (a :: t) = false := by
      show ((c == a) && isPrefList rest t) = false
      rw [hca]
      rfl
    rw [h1, ih (fun hm => h (List.mem_cons_of_mem a hm))]
    rfl

theorem tailRisk_false_of_head_not_mem (c : Char) (rest : List Char) :
    ∀ l : List Char, c ∉ l → tailRisk (c :: rest) l = false := by
  intro l
  induction l with
  | nil => intro _; rfl
  | cons a t ih =>
    intro h
    have hac : (a == c) = false := by
      refine beq_eq_false_iff_ne.mpr ?_
      intro e
      apply h
      rw [← e]
      exact List.mem_cons_self a t
    show (isPrefList (a :: t) (c :: rest) || tailRisk (c :: rest) t) = false
    have h1 : isPrefList (a :: t) (c :: rest) = false := by
      show ((a == c) && isPrefList t rest) = false
      rw [hac]
      rfl
    rw [h1, ih (fun hm => h (List.mem_cons_of_mem a hm))]
    rfl

theorem scriptFree_append (x y : String) (hx : scriptFree x) (hy : scriptFree y) :
    scriptFree (x ++ y) := by
  constructor
  · rw [String.data_append]
    exact hasSub_append_false _ _ hy.1 _ hx.1 hx.2
  · rw [String.data_append]
    exact tailRisk_append_false _ _ hy.2 _ hx.2

theorem scriptFree_of_no_lt (s : String) (h : '<' ∉ s.data) : scriptFree s := by
  have hpat : "<script>".data = '<' :: "script>".data := rfl
  constructor
  · rw [hpat]
    exact hasSub_false_of_head_not_mem _ _ _ h
  · rw [hpat]
    exact tailRisk_false_of_head_not_mem _ _ _ h

theorem no_infix_of_scriptFree (s : String) (h : scriptFree s) :
    ∀ p q : String, s ≠ p ++ "<script>" ++ q := by
  intro p q hc
  have hd : s.data = p.data ++ ("<script>".data ++ q.data) := by
    rw [hc, String.data_append, String.data_append, List.append_assoc]
  have htrue : hasSub "<script>".data s.data = true := by
    rw [hd]
    exact hasSub_of_split _ _ _
  rw [h.1] at htrue
  exact Bool.false_ne_true htrue

/-! ## C6: the unescaped interpolations contain no markup characters -/

theorem no_lt_append (a b : String) (ha : '<' ∉ a.data) (hb : '<' ∉ b.data) :
    '<' ∉ (a ++ b).data := by
  rw [String.data_append]
  intro h
  rcases List.mem_append.mp h with h | h
  · exact ha h
  · exact hb h

theorem digitCharOf_mem (n : ℕ) : digitCharOf n ∈ digitChars := by
  unfold digitCharOf
  split <;> decide

theorem natReprGo_mem (fuel : ℕ) :
    ∀ (n : ℕ) (acc : List Char) (c : Char),
      c ∈ natReprGo fuel n acc → c ∈ digitChars ∨ c ∈ acc := by
  induction fuel with
  | zero => intro n acc c h; exact Or.inr h
  | succ f ih =>
    intro n acc c h
    unfold natReprGo at h
    by_cases hn : n < 10
    · rw [if_pos hn] at h
      rcases List.mem_cons.mp h with h | h
      · exact Or.inl (by rw [h]; exact digitCharOf_mem n)
      · exact Or.inr h
    · rw [if_neg hn] at h
      rcases ih (n / 10) (digitCharOf n :: acc) c h with h | h
      · exact Or.inl h
      · rcases List.mem_cons.mp h with h | h
        · exact Or.inl (by rw [h]; exact digitCharOf_mem n)
        · exact Or.inr h

theorem no_lt_natRepr (n : ℕ) : '<' ∉ (natRepr n).data := by
  intro h
  have h' : '<' ∈ natReprGo (n + 1) n [] := h
  rcases natReprGo_mem (n + 1) n [] '<' h' with h2 | h2
  · revert h2; decide
  · exact absurd h2 (List.not_mem_nil _)

theorem no_lt_intRepr (i : ℤ) : '<' ∉ (intRepr i).data := by
  unfold intRepr
  split
  · exact no_lt_append _ _ (by decide) (no_lt_natRepr _)
  · exact no_lt_natRepr _

theorem no_lt_fixedDigits (n : ℕ) :
    '<' ∉ (natRepr (n / 100) ++ "." ++ (if n % 100 < 10 then "0" else "") ++
      natRepr (n % 100)).data := by
  refine no_lt_append _ _ (no_lt_append _ _ (no_lt_append _ _ (no_lt_natRepr _)
    (by decide)) ?_) (no_lt_natRepr _)
  split <;> decide

theorem no_lt_toFixed2 (q : ℚ) : '<' ∉ (toFixed2 q).data := by
  unfold toFixed2 toFixed2Nonneg
  split
  · exact no_lt_append _ _ (by decide) (no_lt_fixedDigits _)
  · exact no_lt_fixedDigits _

theorem no_lt_toFixed2JS (o : Option ℚ) : '<' ∉ (toFixed2JS o).data := by
  cases o with
  | none => decide
  | some q => exact no_lt_toFixed2 q

theorem no_lt_gbp (v : JVal) : '<' ∉ (gbp v).data := by
  unfold gbp
  exact no_lt_append _ _ (by decide) (no_lt_toFixed2JS _)

theorem no_lt_showNum (o : Option ℚ) : '<' ∉ (showNum o).data := by
  cases o with
  | none => decide
  | some q =>
    show '<' ∉ (if q.den = 1 then intRepr q.num else toFixed2 q).data
    split
    · exact no_lt_intRepr _
    · exact no_lt_toFixed2 _

/-! ## C6: every chunk of the rendered HTML is script-free -/

theorem scriptFree_escape (s : String) : scriptFree (escapeHtml s) :=
  scriptFree_of_no_lt _ (escapeHtml_no_lt s)

theorem scriptFree_gbp (v : JVal) : scriptFree (gbp v) :=
  scriptFree_of_no_lt _ (no_lt_gbp v)

theorem scriptFree_showNum (o : Option ℚ) : scriptFree (showNum o) :=
  scriptFree_of_no_lt _ (no_lt_showNum o)

theorem scriptFree_ite (c : Prop) [Decidable c] (a b : String)
    (ha : scriptFree a) (hb : scriptFree b) : scriptFree (if c then a else b) := by
  split
  · exact ha
  · exact hb

set_option maxRecDepth 10000 in
set_option maxHeartbeats 2000000 in
theorem scriptFree_itemWhen (it : Item) : scriptFree (itemWhenHtml it) := by
  unfold itemWhenHtml
  repeat'
    first
      | apply scriptFree_ite
      | apply scriptFree_append
      | exact scriptFree_escape _
      | decide

set_option maxRecDepth 10000 in
set_option maxHeartbeats 2000000 in
theorem scriptFree_itemRow (it : Item) : scriptFree (itemRowHtml it) := by
  unfold itemRowHtml
  repeat'
    first
      | apply scriptFree_append
      | exact scriptFree_escape _
      | exact scriptFree_itemWhen it
      | exact scriptFree_showNum _
      | exact scriptFree_gbp _
      | decide

theorem strFoldl_append (l : List String) :
    ∀ x y : String,
      l.foldl (fun r s => r ++ s) (x ++ y) = x ++ l.foldl (fun r s => r ++ s) y := by
  induction l with
  | nil => intro x y; rfl
  | cons a t ih =>
    intro x y
    show t.foldl _ ((x ++ y) ++ a) = x ++ t.foldl _ (y ++ a)
    rw [String.append_assoc]
    exact ih x (y ++ a)

theorem strJoin_cons (a : String) (l : List String) :
    String.join (a :: l) = a ++ String.join l := by
  show l.foldl (fun r s => r ++ s) ("" ++ a) = a ++ l.foldl (fun r s => r ++ s) ""
  rw [String.empty_append]
  have h := strFoldl_append l a ""
  rw [String.append_empty] at h
  exact h

theorem scriptFree_join_items (l : List Item) :
    scriptFree (String.join (l.map itemRowHtml)) := by
  induction l with
  | nil => decide
  | cons a t ih =>
    rw [List.map_cons, strJoin_cons]
    exact scriptFree_append _ _ (scriptFree_itemRow a) ih

set_option maxRecDepth 10000 in
set_option maxHeartbeats 2000000 in
theorem scriptFree_travelRow (d : ReceiptData) : scriptFree (travelRowHtml d) := by
  unfold travelRowHtml
  repeat'
    first
      | apply scriptFree_ite
      | apply scriptFree_append
      | exact scriptFree_gbp _
      | decide

set_option maxRecDepth 10000 in
set_option maxHeartbeats 2000000 in
theorem scriptFree_depositBlock (d : ReceiptData) : scriptFree (depositBlockHtml d) := by
  unfold depositBlockHtml
  repeat'
    first
      | apply scriptFree_ite
      | apply scriptFree_append
      | exact scriptFree_gbp _
      | decide

set_option maxRecDepth 10000 in
set_option maxHeartbeats 2000000 in
theorem scriptFree_ref (d : ReceiptData) : scriptFree (refHtml d) := by
  unfold refHtml
  repeat'
    first
      | apply scriptFree_ite
      | apply scriptFree_append
      | exact scriptFree_escape _
      | decide

set_option maxRecDepth 10000 in
set_option maxHeartbeats 2000000 in
theorem scriptFree_renderReceiptHtml (d : ReceiptData) :
    scriptFree (renderReceiptHtml d) := by
  unfold renderReceiptHtml
  repeat'
    first
      | apply scriptFree_append
      | exact scriptFree_escape _
      | exact scriptFree_ref d
      | exact scriptFree_join_items d.items
      | exact scriptFree_travelRow d
      | exact scriptFree_depositBlock d
      | exact scriptFree_gbp _
      | decide

/-! ## C6: each interpolated field occurs escaped -/

theorem containsStr_trans (s mid pat : String)
    (h1 : containsStr s mid) (h2 : containsStr mid pat) : containsStr s pat := by
  obtain ⟨p, q, rfl⟩ := h1
  obtain ⟨p2, q2, rfl⟩ := h2
  exact ⟨p ++ p2, q2 ++ q, by simp [String.append_assoc]⟩

theorem containsStr_self_prefix (pat x : String) : containsStr (pat ++ x) pat :=
  ⟨"", x, by rw [String.empty_append]⟩

theorem containsStr_join_of_mem (l : List String) (x : String) (h : x ∈ l) :
    containsStr (String.join l) x := by
  induction l with
  | nil => cases h
  | cons a t ih =>
    rw [strJoin_cons]
    rcases List.mem_cons.mp h with rfl | h2
    · exact containsStr_self_prefix _ _
    · exact containsStr_append_right _ _ _ (ih h2)

theorem itemWhen_contains_date (it : Item)
    (h : (truthyOptStr it.date || truthyOptStr it.time) = true) :
    containsStr (itemWhenHtml it) (escapeHtml (jsOrOptStr it.date "")) := by
  unfold itemWhenHtml
  rw [if_pos h]
  apply containsStr_append_left
  apply containsStr_append_left
  exact containsStr_append_self _ _

theorem itemWhen_contains_time (it : Item) (h : truthyOptStr it.time = true) :
    containsStr (itemWhenHtml it) (escapeHtml (it.time.getD "")) := by
  unfold itemWhenHtml
  rw [if_pos (show (truthyOptStr it.date || truthyOptStr it.time) = true by
    rw [h, Bool.or_true])]
  apply containsStr_append_left
  apply containsStr_append_right
  rw [if_pos h]
  exact containsStr_append_self _ _

theorem itemRow_contains_desc (it : Item) :
    containsStr (itemRowHtml it) (escapeHtml (jsOrOptStr it.desc "")) := by
  unfold itemRowHtml
  repeat
    first
      | exact containsStr_append_self _ _
      | apply containsStr_append_left

theorem itemRow_contains_when (it : Item) (pat : String)
    (h : containsStr (itemWhenHtml it) pat) : containsStr (itemRowHtml it) pat := by
  unfold itemRowHtml
  repeat
    first
      | exact containsStr_append_right _ _ _ h
      | apply containsStr_append_left

theorem html_contains_itemRow (d : ReceiptData) (it : Item) (h : it ∈ d.items) :
    containsStr (renderReceiptHtml d) (itemRowHtml it) := by
  have hj : containsStr (String.join (d.items.map itemRowHtml)) (itemRowHtml it) :=
    containsStr_join_of_mem _ _ (List.mem_map_of_mem _ h)
  unfold renderReceiptHtml
  repeat
    first
      | exact containsStr_append_right _ _ _ hj
      | apply containsStr_append_left

/-! ## C6 -/

set_option maxRecDepth 10000 in
set_option maxHeartbeats 4000000 in
/-- C6: the rendered receipt HTML never contains a raw `<script>` substring
for any input snapshot (so none can originate from a customer name
containing `<script>`), and every interpolated text field — customer name,
address, email, receipt no, invoice no, paid date, method, payment
reference, item descriptions and their date/time annotations — enters the
document through `escapeHtml`, whose output never contains a raw '<'. -/
theorem renderReceiptHtml_escapes_all_fields (d : ReceiptData) :
    (∀ p q : String, renderReceiptHtml d ≠ p ++ "<script>" ++ q) ∧
    containsStr (renderReceiptHtml d) (escapeHtml (jsOrOptStr d.customerName "—")) ∧
    containsStr (renderReceiptHtml d) (escapeHtml (jsOrOptStr d.customerAddress "")) ∧
    containsStr (renderReceiptHtml d) (escapeHtml (jsOrOptStr d.customerEmail "")) ∧
    containsStr (renderReceiptHtml d) (escapeHtml (jsOrStr d.receiptNo "—")) ∧
    containsStr (renderReceiptHtml d) (escapeHtml (jsOrStr d.invoiceNo "—")) ∧
    containsStr (renderReceiptHtml d)
      (escapeHtml (if truthyOptStr d.paidAt then toLocaleStringGB (d.paidAt.getD "")
        else "—")) ∧
    containsStr (renderReceiptHtml d) (escapeHtml (jsOrOptStr d.paidMethod "—")) ∧
    (truthyOptStr d.paidRef = true →
      containsStr (renderReceiptHtml d) (escapeHtml (d.paidRef.getD ""))) ∧
    (∀ it ∈ d.items,
      containsStr (renderReceiptHtml d) (escapeHtml (jsOrOptStr it.desc "")) ∧
      ((truthyOptStr it.date || truthyOptStr it.time) = true →
        containsStr (renderReceiptHtml d) (escapeHtml (jsOrOptStr it.date ""))) ∧
      (truthyOptStr it.time = true →
        containsStr (renderReceiptHtml d) (escapeHtml (it.time.getD "")))) ∧
    (∀ s : String, '<' ∉ (escapeHtml s).data) ∧
    (∀ s p q : String, escapeHtml s ≠ p ++ "<script>" ++ q) := by
  refine ⟨no_infix_of_scriptFree _ (scriptFree_renderReceiptHtml d),
    ?_, ?_, ?_, ?_, ?_, ?_, ?_, ?_, ?_, escapeHtml_no_lt, escapeHtml_no_script⟩
  · unfold renderReceiptHtml
    repeat
      first
        | exact containsStr_append_self _ _
        | apply containsStr_append_left
  · unfold renderReceiptHtml
    repeat
      first
        | exact containsStr_append_self _ _
        | apply containsStr_append_left
  · unfold renderReceiptHtml
    repeat
      first
        | exact containsStr_append_self _ _
        | apply containsStr_append_left
  · unfold renderReceiptHtml
    repeat
      first
        | exact containsStr_append_self _ _
        | apply containsStr_append_left
  · unfold renderReceiptHtml
    repeat
      first
        | exact containsStr_append_self _ _
        | apply containsStr_append_left
  · unfold renderReceiptHtml
    repeat
      first
        | exact containsStr_append_self _ _
        | apply containsStr_append_left
  · unfold renderReceiptHtml
    repeat
      first
        | exact containsStr_append_self _ _
        | apply containsStr_append_left
  · intro href
    have hr : containsStr (refHtml d) (escapeHtml (d.paidRef.getD "")) := by
      unfold refHtml
      rw [if_pos href]
      apply containsStr_append_left
      exact containsStr_append_self _ _
    unfold renderReceiptHtml
    repeat
      first
        | exact containsStr_append_right _ _ _ hr
        | apply containsStr_append_left
  · intro it hit
    refine ⟨?_, ?_, ?_⟩
    · exact containsStr_trans _ _ _ (html_contains_itemRow d it hit)
        (itemRow_contains_desc it)
    · intro h
      exact containsStr_trans _ _ _ (html_contains_itemRow d it hit)
        (itemRow_contains_when it _ (itemWhen_contains_date it h))
    · intro h
      exact containsStr_trans _ _ _ (html_contains_itemRow d it hit)
        (itemRow_contains_when it _ (itemWhen_contains_time it h))

/-- A snapshot exercising the conditional fields: a payment reference and a
line item with description, date and time. -/
def rdWit : ReceiptData :=
  { receiptNo := "R1"
    invoiceNo := "INV-7"
    paidAt := none
    paidMethod := none
    paidRef := some "ref-9"
    customerName := some "Ann"
    customerEmail := some "a@b.c"
    customerAddress := none
    items := [{ desc := some "Lesson", date := some "2026-01-02", time := some "10:00" }]
    travelFee := 0
    total := 120
    deposit := 10
    balanceDue := max 0 (120 - 10)
    programme := "lessons" }

set_option maxRecDepth 10000 in
set_option maxHeartbeats 2000000 in
/-- Witness for C6: at `rdWit` the rendered HTML has no raw `<script>`
substring, and the conditional reference and item date fields occur
escaped. -/
theorem renderReceiptHtml_escapes_all_fields_witness :
    (∀ p q : String, renderReceiptHtml rdWit ≠ p ++ "<script>" ++ q) ∧
    containsStr (renderReceiptHtml rdWit) (escapeHtml (rdWit.paidRef.getD "")) ∧
    containsStr (renderReceiptHtml rdWit)
      (escapeHtml (jsOrOptStr
        ({ desc := some "Lesson", date := some "2026-01-02", time := some "10:00" } :
          Item).date "")) :=
  ⟨(renderReceiptHtml_escapes_all_fields rdWit).1,
   (renderReceiptHtml_escapes_all_fields rdWit).2.2.2.2.2.2.2.2.1 (by decide),
   ((renderReceiptHtml_escapes_all_fields rdWit).2.2.2.2.2.2.2.2.2.1
     { desc := some "Lesson", date := some "2026-01-02", time := some "10:00" }
     (by decide)).2.1 (by decide)⟩

/-! ## C5 -/

/-- C5: with the balance computed as in `sendReceiptEmail`
(`balanceDue = max 0 (total − deposit)`), a positive deposit renders — in
the HTML document and in the text lines — a deposit-already-paid line
showing the deposit, a payment-received-today line showing
max(0, total − deposit), and a total-paid-to-date line showing the total;
a non-positive deposit renders the single total-paid line instead. -/
theorem receipt_totals_deposit_branch (d : ReceiptData)
    (hb : d.balanceDue = max 0 (d.total - d.deposit)) :
    (0 < d.deposit →
      containsStr (renderReceiptHtml d)
        ("Stripe deposit already paid:" ++
         "</div>\n          <div style=\"font-weight:700;\">" ++
         gbp (JVal.jnum d.deposit)) ∧
      containsStr (renderReceiptHtml d)
        ("Payment received today:" ++
         "</div>\n          <div style=\"font-weight:900;color:#047857;\">" ++
         gbp (JVal.jnum (max 0 (d.total - d.deposit)))) ∧
      containsStr (renderReceiptHtml d)
        ("Total paid to date:" ++
         "</div>\n          <div style=\"font-weight:900;color:#047857;\">" ++
         gbp (JVal.jnum d.total)) ∧
      ("Stripe deposit already paid: £" ++ toFixed2 d.deposit) ∈ receiptTextLines d ∧
      ("Payment received today: £" ++ toFixed2 (max 0 (d.total - d.deposit))) ∈
        receiptTextLines d ∧
      ("Total paid to date: £" ++ toFixed2 d.total) ∈ receiptTextLines d) ∧
    (d.deposit ≤ 0 →
      containsStr (renderReceiptHtml d)
        ("Total paid:" ++
         "</div>\n          <div style=\"font-weight:900;color:#047857;\">" ++
         gbp (JVal.jnum d.total)) ∧
      ("Total paid: £" ++ toFixed2 d.total) ∈ receiptTextLines d) := by
  constructor
  · intro hdep
    refine ⟨?_, ?_, ?_, ?_, ?_, ?_⟩
    · unfold renderReceiptHtml
      apply containsStr_append_left
      apply containsStr_append_right
      unfold depositBlockHtml
      rw [if_pos hdep]
      repeat
        first
          | exact containsStr_append3 _ _ _ _
          | apply containsStr_append_left
    · rw [← hb]
      unfold renderReceiptHtml
      apply containsStr_append_left
      apply containsStr_append_right
      unfold depositBlockHtml
      rw [if_pos hdep]
      repeat
        first
          | exact containsStr_append3 _ _ _ _
          | apply containsStr_append_left
    · unfold renderReceiptHtml
      apply containsStr_append_left
      apply containsStr_append_right
      unfold depositBlockHtml
      rw [if_pos hdep]
      repeat
        first
          | exact containsStr_append3 _ _ _ _
          | apply containsStr_append_left
    · unfold receiptTextLines
      apply List.mem_append_left
      apply List.mem_append_right
      rw [if_pos hdep]
      simp
    · rw [← hb]
      unfold receiptTextLines
      apply List.mem_append_left
      apply List.mem_append_right
      rw [if_pos hdep]
      simp
    · unfold receiptTextLines
      apply List.mem_append_left
      apply List.mem_append_right
      rw [if_pos hdep]
      simp
  · intro hle
    have hneg : ¬ (0 < d.deposit) := not_lt.mpr hle
    constructor
    · unfold renderReceiptHtml
      apply containsStr_append_left
      apply containsStr_append_right
      unfold depositBlockHtml
      rw [if_neg hneg]
      repeat
        first
          | exact containsStr_append3 _ _ _ _
          | apply containsStr_append_left
    · unfold receiptTextLines
      apply List.mem_append_left
      apply List.mem_append_right
      rw [if_neg hneg]
      simp

/-- Snapshot with a positive deposit (total 120, deposit 10). -/
def rdDep : ReceiptData :=
  { receiptNo := "R1"
    invoiceNo := "INV-7"
    paidAt := none
    paidMethod := none
    paidRef := none
    customerName := some "Ann"
    customerEmail := some "a@b.c"
    customerAddress := none
    items := []
    travelFee := 0
    total := 120
    deposit := 10
    balanceDue := max 0 (120 - 10)
    programme := "lessons" }

/-- The same snapshot with no deposit. -/
def rdNoDep : ReceiptData :=
  { rdDep with
    deposit := 0
    balanceDue := max 0 (120 - 0) }

/-- Witness for C5 at total 120/deposit 10 (payment received today and
total paid to date lines) and at deposit 0 (single total-paid line). -/
theorem receipt_totals_deposit_branch_witness :
    ("Payment received today: £" ++ toFixed2 (max 0 (rdDep.total - rdDep.deposit))) ∈
      receiptTextLines rdDep ∧
    ("Total paid to date: £" ++ toFixed2 rdDep.total) ∈ receiptTextLines rdDep ∧
    ("Total paid: £" ++ toFixed2 rdNoDep.total) ∈ receiptTextLines rdNoDep :=
  ⟨((receipt_totals_deposit_branch rdDep rfl).1 (by decide)).2.2.2.2.1,
   ((receipt_totals_deposit_branch rdDep rfl).1 (by decide)).2.2.2.2.2,
   ((receipt_totals_deposit_branch rdNoDep rfl).2 (by decide)).2⟩

end Emm
